import Mathlib

/-!
Verification of the fashion-ai-backend recommendation core.

This file gives a shallow embedding, in Lean 4, of the pure computational
core of the repository's recommendation services:

  * `app/services/outfit_service.py`      (categorisation, generation loop, scoring)
  * `app/services/fashion_ai_service.py`  (similarity search)
  * `app/services/personalized_ai_service.py` (history mining, personalised re-ranking)
  * `app/routes/ai_recommendations.py`    (the personalised-recommendations route)

Modelling conventions:

  * Python strings are modelled as `List Char` (`PStr`).  `str.lower` is
    modelled on ASCII by `lowChar` (all string constants in the services are
    ASCII).  Python's substring test `needle in hay` is `pyContains`,
    `str.strip` is `pyStrip` (whitespace only, as used by the services).
  * Python floats are modelled as exact rationals `ℚ`; `round(x, d)` is
    modelled as exact round-half-to-even at `d` decimal digits (`pyRound`).
  * Python `list.sort(key=k, reverse=True)` is a stable sort; it is modelled
    by the stable insertion sort `sortBy le` with `le a b = decide (k b ≤ k a)`.
  * Mongo documents are modelled as records.  Fields that the services read
    with `dict.get(key, default)` and only ever test for truthiness or use
    with a string default are modelled as plain `PStr` with `[]` (the empty
    string) standing for an absent/empty value; fields whose `None`-ness is
    significant (`embedding`, `rating`, weather data) are `Option`s.
  * I/O (database reads, the weather HTTP call, the random source) is made
    explicit: each function takes the fetched data, and the random draws of
    the generation loop, as parameters.
-/

namespace FashionAI

/-! ## Python string model -/

/-- Python strings, modelled as lists of characters. -/
abbrev PStr := List Char

/-- ASCII model of Python `str.lower` on one character: the characters
`A`–`Z` (code points 65–90) map to `a`–`z`, everything else is unchanged. -/
def lowChar (c : Char) : Char :=
  if h : 65 ≤ c.toNat ∧ c.toNat ≤ 90 then
    Char.ofNatAux (c.toNat + 32) (Or.inl (by omega))
  else c

/-- Model of Python `str.lower` (ASCII). -/
def pyLower (s : PStr) : PStr := s.map lowChar

/-- Model of Python's substring test `needle in hay`. -/
def pyContains (hay needle : PStr) : Bool :=
  match hay with
  | [] => needle.isEmpty
  | _ :: t => needle.isPrefixOf hay || pyContains t needle

/-- Model of Python `str.strip` (strips leading and trailing whitespace). -/
def pyStrip (s : PStr) : PStr :=
  ((s.dropWhile Char.isWhitespace).reverse.dropWhile Char.isWhitespace).reverse

/-- Lexicographic comparison of strings by code point, as used by Python's
`sorted` on strings. -/
def pstrLe : PStr → PStr → Bool
  | [], _ => true
  | _ :: _, [] => false
  | a :: as, b :: bs =>
      if a < b then true else if b < a then false else pstrLe as bs

theorem lowChar_toNat (c : Char) :
    (lowChar c).toNat = if 65 ≤ c.toNat ∧ c.toNat ≤ 90 then c.toNat + 32 else c.toNat := by
  unfold lowChar
  split <;> · rfl

theorem lowChar_idem (c : Char) : lowChar (lowChar c) = lowChar c := by
  have h2 : ¬ (65 ≤ (lowChar c).toNat ∧ (lowChar c).toNat ≤ 90) := by
    have h1 := lowChar_toNat c
    by_cases h : 65 ≤ c.toNat ∧ c.toNat ≤ 90
    · rw [if_pos h] at h1; omega
    · rw [if_neg h] at h1; omega
  exact dif_neg h2

theorem pyLower_idem (s : PStr) : pyLower (pyLower s) = pyLower s := by
  unfold pyLower
  rw [List.map_map]
  exact List.map_congr_left fun c _ => lowChar_idem c

/-! ## Stable sorting (Python `list.sort` / `sorted`) -/

/-- Insert `a` into `l` in front of the first element `b` with `le a b`.
Together with `sortBy` this is a stable insertion sort: elements that
compare equal keep their original relative order, exactly as Python's
stable `list.sort`. -/
def insertSorted (le : α → α → Bool) (a : α) : List α → List α
  | [] => [a]
  | b :: l => if le a b then a :: b :: l else b :: insertSorted le a l

/-- Stable sort by the boolean comparison `le`; models Python's
`sorted(l, key=k)` (with `le` the comparison induced by the key) and
`l.sort(key=k, reverse=True)` (with the comparison reversed). -/
def sortBy (le : α → α → Bool) : List α → List α
  | [] => []
  | a :: l => insertSorted le a (sortBy le l)

theorem perm_insertSorted (le : α → α → Bool) (a : α) (l : List α) :
    List.Perm (insertSorted le a l) (a :: l) := by
  induction l with
  | nil => exact List.Perm.refl _
  | cons b t ih =>
      unfold insertSorted
      split
      · exact List.Perm.refl _
      · exact ((ih.cons b).trans (List.Perm.swap a b t))

theorem perm_sortBy (le : α → α → Bool) (l : List α) : List.Perm (sortBy le l) l := by
  induction l with
  | nil => exact List.Perm.refl _
  | cons a t ih => exact (perm_insertSorted le a (sortBy le t)).trans (ih.cons a)

theorem mem_insertSorted (le : α → α → Bool) (a x : α) (l : List α) :
    x ∈ insertSorted le a l ↔ x = a ∨ x ∈ l := by
  have h := (perm_insertSorted le a l).mem_iff (a := x)
  simpa using h

theorem pairwise_insertSorted (le : α → α → Bool)
    (htot : ∀ a b, le a b || le b a)
    (htrans : ∀ a b c, le a b = true → le b c = true → le a c = true)
    (a : α) (l : List α)
    (hl : l.Pairwise (fun x y => le x y = true)) :
    (insertSorted le a l).Pairwise (fun x y => le x y = true) := by
  induction l with
  | nil => simp [insertSorted]
  | cons b t ih =>
      rw [List.pairwise_cons] at hl
      unfold insertSorted
      split
      · rename_i hab
        refine List.Pairwise.cons ?_ (List.Pairwise.cons hl.1 hl.2)
        intro x hx
        rcases List.mem_cons.mp hx with rfl | hx
        · exact hab
        · exact htrans a b x hab (hl.1 x hx)
      · rename_i hab
        have hab' : le a b = false := by
          cases hxy : le a b
          · rfl
          · exact absurd hxy hab
        refine List.Pairwise.cons ?_ (ih hl.2)
        intro x hx
        rcases (mem_insertSorted le a x t).mp hx with hxa | hx
        · subst hxa
          rcases Bool.or_eq_true_iff.mp (htot x b) with h | h
          · rw [hab'] at h; cases h
          · exact h
        · exact hl.1 x hx

theorem pairwise_sortBy (le : α → α → Bool)
    (htot : ∀ a b, le a b || le b a)
    (htrans : ∀ a b c, le a b = true → le b c = true → le a c = true)
    (l : List α) :
    (sortBy le l).Pairwise (fun x y => le x y = true) := by
  induction l with
  | nil => exact List.Pairwise.nil
  | cons a t ih => exact pairwise_insertSorted le htot htrans a (sortBy le t) ih

/-- Cross property of a pairwise-sorted list: everything in the prefix
`take n` is related to everything in the suffix `drop n`. -/
theorem pairwise_take_drop {R : α → α → Prop} {l : List α}
    (h : l.Pairwise R) (n : ℕ) :
    ∀ a ∈ l.take n, ∀ b ∈ l.drop n, R a b := by
  have := (List.take_append_drop n l) ▸ h
  exact fun a ha b hb => (List.pairwise_append.mp this).2.2 a ha b hb

/-! ## Association lists (Python `dict` / `defaultdict` with insertion order) -/

/-- Add `v` to the entry of key `k` of an association list, appending a new
entry at the end if the key is absent.  Models `defaultdict(float)`'s
`d[k] += v` including Python's insertion-order iteration semantics. -/
def addToAssoc (l : List (PStr × ℚ)) (k : PStr) (v : ℚ) : List (PStr × ℚ) :=
  match l with
  | [] => [(k, v)]
  | (k', v') :: t => if k' = k then (k', v' + v) :: t else (k', v') :: addToAssoc t k v

/-- Increment the counter of key `k`; models `defaultdict(int)`'s `d[k] += 1`. -/
def incAssoc (l : List (PStr × ℕ)) (k : PStr) : List (PStr × ℕ) :=
  match l with
  | [] => [(k, 1)]
  | (k', v') :: t => if k' = k then (k', v' + 1) :: t else (k', v') :: incAssoc t k

/-- Append `v` to the list stored at key `k`; models `defaultdict(list)`'s
`d[k].append(v)`. -/
def pushAssoc (l : List (PStr × List ℚ)) (k : PStr) (v : ℚ) : List (PStr × List ℚ) :=
  match l with
  | [] => [(k, [v])]
  | (k', v') :: t => if k' = k then (k', v' ++ [v]) :: t else (k', v') :: pushAssoc t k v

/-- Dictionary lookup, `d.get(k)`. -/
def lookupAssoc (l : List (PStr × β)) (k : PStr) : Option β :=
  (l.find? (fun p => p.1 = k)).map (·.2)

/-- Dictionary lookup with default, `d.get(k, d0)`. -/
def lookupD (l : List (PStr × β)) (k : PStr) (d0 : β) : β :=
  (lookupAssoc l k).getD d0

/-- Key membership, `k in d`. -/
def keyMem (l : List (PStr × β)) (k : PStr) : Bool :=
  l.any (fun p => p.1 = k)

theorem lookupD_addToAssoc (l : List (PStr × ℚ)) (k c : PStr) (v : ℚ) :
    lookupD (addToAssoc l k v) c 0 = lookupD l c 0 + (if c = k then v else 0) := by
  induction l with
  | nil =>
      by_cases h : c = k
      · subst h; simp [addToAssoc, lookupD, lookupAssoc]
      · have h' : ¬ (k = c) := fun hh => h hh.symm
        simp [addToAssoc, lookupD, lookupAssoc, List.find?, h, h']
  | cons p t ih =>
      obtain ⟨k', v'⟩ := p
      by_cases hk : k' = k
      · by_cases hc : k' = c
        · have hck : c = k := hc.symm.trans hk
          subst hck
          simp [addToAssoc, lookupD, lookupAssoc, List.find?, hk]
        · have hc' : ¬ (c = k') := fun hh => hc hh.symm
          have hck : ¬ (c = k) := fun hh => hc (hk.symm ▸ hh.symm)
          have hkc : ¬ (k = c) := fun hh => hck hh.symm
          simp [addToAssoc, lookupD, lookupAssoc, List.find?, hk, hc, hc', hck, hkc]
      · by_cases hc : k' = c
        · have hck : ¬ (c = k) := fun hh => hk (hc.trans hh)
          simp [addToAssoc, lookupD, lookupAssoc, List.find?, hk, hc, hck]
        · simpa [addToAssoc, lookupD, lookupAssoc, List.find?, hk, hc] using ih

theorem keys_addToAssoc (l : List (PStr × ℚ)) (k c : PStr) (v : ℚ) :
    c ∈ (addToAssoc l k v).map (·.1) ↔ c ∈ l.map (·.1) ∨ c = k := by
  induction l with
  | nil => simp [addToAssoc]
  | cons p t ih =>
      obtain ⟨k', v'⟩ := p
      by_cases hk : k' = k
      · subst hk; simp [addToAssoc]; tauto
      · simp only [addToAssoc, if_neg hk, List.map_cons, List.mem_cons, ih]
        tauto

theorem nodup_keys_addToAssoc (l : List (PStr × ℚ)) (k : PStr) (v : ℚ)
    (h : (l.map (·.1)).Nodup) : ((addToAssoc l k v).map (·.1)).Nodup := by
  induction l with
  | nil => simp [addToAssoc]
  | cons p t ih =>
      obtain ⟨k', v'⟩ := p
      rw [List.map_cons, List.nodup_cons] at h
      by_cases hk : k' = k
      · subst hk
        simpa [addToAssoc, List.nodup_cons] using h
      · rw [addToAssoc, if_neg hk, List.map_cons, List.nodup_cons]
        refine ⟨?_, ih h.2⟩
        intro hmem
        rcases (keys_addToAssoc t k k' v).mp hmem with hm | hm
        · exact h.1 hm
        · exact hk hm

theorem lookupAssoc_eq_of_mem {l : List (PStr × ℚ)} {k : PStr} {v : ℚ}
    (hmem : (k, v) ∈ l) (hnd : (l.map (·.1)).Nodup) :
    lookupAssoc l k = some v := by
  induction l with
  | nil => cases hmem
  | cons p t ih =>
      obtain ⟨k', v'⟩ := p
      rw [List.map_cons, List.nodup_cons] at hnd
      rcases List.mem_cons.mp hmem with heq | hmem'
      · cases heq
        simp [lookupAssoc, List.find?]
      · have hk : ¬ (k' = k) := by
          intro h
          subst h
          exact hnd.1 (List.mem_map.mpr ⟨(k', v), hmem', rfl⟩)
        simpa [lookupAssoc, List.find?, hk] using ih hmem' hnd.2

/-- Folding `d[k] += v` over a stream of key/value pairs: the final value at
a key is the initial value plus the sum of the stream's contributions at
that key. -/
theorem lookupD_foldl_addToAssoc (ps : List (PStr × ℚ)) (l : List (PStr × ℚ)) (c : PStr) :
    lookupD (ps.foldl (fun acc p => addToAssoc acc p.1 p.2) l) c 0 =
      lookupD l c 0 + ((ps.filter (fun p => p.1 = c)).map (·.2)).sum := by
  induction ps generalizing l with
  | nil => simp
  | cons p t ih =>
      obtain ⟨k, v⟩ := p
      by_cases hc : k = c
      · subst hc
        simp only [List.foldl_cons, ih, lookupD_addToAssoc, List.filter_cons]
        simp
        ring
      · have hc' : ¬ (c = k) := fun hh => hc hh.symm
        simp only [List.foldl_cons, ih, lookupD_addToAssoc, List.filter_cons]
        simp [hc, hc']

theorem nodup_keys_foldl_addToAssoc (ps : List (PStr × ℚ)) (l : List (PStr × ℚ))
    (h : (l.map (·.1)).Nodup) :
    (((ps.foldl (fun acc p => addToAssoc acc p.1 p.2) l)).map (·.1)).Nodup := by
  induction ps generalizing l with
  | nil => exact h
  | cons p t ih => exact ih _ (nodup_keys_addToAssoc _ _ _ h)

/-! ## Rounding (Python `round`) -/

/-- Round-half-to-even of a rational to an integer; model of Python's
`round` (banker's rounding), with the float representation idealised away. -/
def roundHalfEven (y : ℚ) : ℤ :=
  if y - ⌊y⌋ < 1/2 then ⌊y⌋
  else if 1/2 < y - ⌊y⌋ then ⌊y⌋ + 1
  else if 2 ∣ ⌊y⌋ then ⌊y⌋ else ⌊y⌋ + 1

/-- Model of Python `round(x, d)`. -/
def pyRound (d : ℕ) (x : ℚ) : ℚ :=
  (roundHalfEven (x * 10 ^ d) : ℚ) / 10 ^ d

theorem roundHalfEven_bounds (y : ℚ) :
    ⌊y⌋ ≤ roundHalfEven y ∧ roundHalfEven y ≤ ⌊y⌋ + 1 ∧
      (roundHalfEven y = ⌊y⌋ + 1 → 1/2 ≤ y - ⌊y⌋) := by
  unfold roundHalfEven
  split
  · exact ⟨le_refl _, by omega, fun h => by omega⟩
  · rename_i h1
    split
    · rename_i h2
      exact ⟨by omega, le_refl _, fun _ => le_of_lt h2⟩
    · rename_i h2
      have heq : 1/2 ≤ y - ⌊y⌋ := by linarith [not_lt.mp h1]
      split
      · exact ⟨le_refl _, by omega, fun h => by omega⟩
      · exact ⟨by omega, le_refl _, fun _ => heq⟩

/-- Rounding keeps values inside `[0, 1]`. -/
theorem pyRound_mem_unit (d : ℕ) (x : ℚ) (h0 : 0 ≤ x) (h1 : x ≤ 1) :
    0 ≤ pyRound d x ∧ pyRound d x ≤ 1 := by
  unfold pyRound
  set y : ℚ := x * 10 ^ d with hy
  have hpow : (0:ℚ) < 10 ^ d := by positivity
  have hy0 : 0 ≤ y := by positivity
  have hy1 : y ≤ 10 ^ d := by
    rw [hy]
    nlinarith
  obtain ⟨hlo, hhi, hhalf⟩ := roundHalfEven_bounds y
  have hfl0 : (0:ℤ) ≤ ⌊y⌋ := Int.floor_nonneg.mpr hy0
  have hfly : (⌊y⌋ : ℚ) ≤ y := Int.floor_le y
  constructor
  · apply div_nonneg _ (le_of_lt hpow)
    have h2 : (0:ℤ) ≤ roundHalfEven y := le_trans hfl0 hlo
    exact_mod_cast h2
  · rw [div_le_one hpow]
    by_cases hcase : roundHalfEven y = ⌊y⌋ + 1
    · have hh := hhalf hcase
      have hYlt : (⌊y⌋ : ℚ) ≤ 10 ^ d - 1/2 := by linarith
      have hflz : (⌊y⌋ : ℚ) + 1 ≤ 10 ^ d := by
        have hq : (⌊y⌋ : ℚ) < (((10:ℤ) ^ d : ℤ) : ℚ) := by push_cast; linarith
        have hz : ⌊y⌋ < (10:ℤ) ^ d := by exact_mod_cast hq
        have hz1 : ((⌊y⌋ + 1 : ℤ) : ℚ) ≤ (((10:ℤ) ^ d : ℤ) : ℚ) := by exact_mod_cast hz
        push_cast at hz1
        linarith
      rw [hcase]
      push_cast
      linarith
    · have hne : roundHalfEven y ≤ ⌊y⌋ := by omega
      calc (roundHalfEven y : ℚ) ≤ (⌊y⌋ : ℚ) := by exact_mod_cast hne
        _ ≤ y := hfly
        _ ≤ 10 ^ d := hy1

/-- Slicing `l[:k]` with a possibly negative Python index `k`. -/
def pySliceTo (k : ℤ) (l : List α) : List α :=
  if 0 ≤ k then l.take k.toNat else l.take ((l.length : ℤ) + k).toNat

/-! ## Data model

A wardrobe item document, with the fields the services read.  String
fields that the code reads via `item.get(key, "")` (or whose only uses
coincide with that) are plain `PStr`, with `[]` denoting a missing/empty
value; `embedding` is an `Option` because the code tests `is not None`.
The code builds an item identifier as `item.get('id') or str(item.get('_id'))`;
this resolved identifier is modelled as the single field `id`. -/
structure Item where
  id : PStr
  item_name : PStr
  description : PStr
  category : PStr
  subcategory : PStr
  color : PStr
  material : PStr
  formality : PStr
  season : List PStr
  item_type : PStr
  embedding : Option (List ℚ)
  deriving DecidableEq

/-- Weather data as consumed by the scorers: `temperature`, the condition
string, and the derived temperature `category` (the value of
`weather_data.get("category", "moderate")`). -/
structure Weather where
  temperature : ℚ
  condition : PStr
  category : PStr
  deriving DecidableEq

/-- A candidate outfit as built by `_create_outfit_from_categories`
(the `outfit_id`, `name` and `created_at` fields are timestamps and
display strings which no claim reads, and are omitted). -/
structure Outfit where
  items : List Item
  occasion : PStr
  deriving DecidableEq

/-! ## `app/services/outfit_service.py`: categorisation and enrichment -/

/-- Model of `OutfitService._detect_category`.  The source lowercases the
`description` field too, but every keyword test is against `name` only. -/
def detect_category (item : Item) : PStr :=
  let name := pyLower item.item_name
  if ["shirt", "t-shirt", "blouse", "top", "sweater", "hoodie", "jersey", "polo"].any
      (fun w => pyContains name w.data) then "tops".data
  else if ["jeans", "pants", "trousers", "skirt", "shorts", "leggings", "chinos"].any
      (fun w => pyContains name w.data) then "bottoms".data
  else if ["dress", "jumpsuit", "romper", "gown"].any
      (fun w => pyContains name w.data) then "dresses".data
  else if ["jacket", "coat", "blazer", "cardigan", "vest", "parka"].any
      (fun w => pyContains name w.data) then "outerwear".data
  else if ["shoes", "sneakers", "boots", "sandals", "heels", "flats", "loafers"].any
      (fun w => pyContains name w.data) then "shoes".data
  else if ["belt", "scarf", "hat", "bag", "wallet", "watch", "jewelry"].any
      (fun w => pyContains name w.data) then "accessories".data
  else "other".data

/-- Model of `OutfitService._detect_subcategory`. -/
def detect_subcategory (item : Item) : PStr :=
  let name := pyLower item.item_name
  let category := pyLower item.category
  if category = "tops".data then
    if pyContains name "t-shirt".data || pyContains name "tee".data then "t-shirt".data
    else if pyContains name "shirt".data then "shirt".data
    else if pyContains name "sweater".data || pyContains name "jumper".data then "sweater".data
    else if pyContains name "hoodie".data then "hoodie".data
    else if pyContains name "blouse".data then "blouse".data
    else "general".data
  else if category = "bottoms".data then
    if pyContains name "jeans".data then "jeans".data
    else if pyContains name "pants".data || pyContains name "trousers".data then "pants".data
    else if pyContains name "shorts".data then "shorts".data
    else if pyContains name "skirt".data then "skirt".data
    else "general".data
  else "general".data

/-- Model of `OutfitService._detect_seasonality`. -/
def detect_seasonality (item : Item) : List PStr :=
  let material := pyLower item.material
  let winter :=
    if ["wool", "fleece", "thermal", "down", "cashmere", "knit"].any
        (fun w => pyContains material w.data) then ["winter".data, "fall".data] else []
  let summer :=
    if ["linen", "cotton", "breathable", "light", "seersucker"].any
        (fun w => pyContains material w.data) then ["summer".data, "spring".data] else []
  let seasons := winter ++ summer
  if seasons = [] then ["spring".data, "summer".data, "fall".data, "winter".data] else seasons

/-- Model of `OutfitService._detect_formality`. -/
def detect_formality (item : Item) : PStr :=
  let name := pyLower item.item_name
  if ["suit", "blazer", "tuxedo", "dress shirt", "tie", "heels", "loafers"].any
      (fun w => pyContains name w.data) then "formal".data
  else if ["dress pants", "button-down", "blouse", "slacks", "oxfords"].any
      (fun w => pyContains name w.data) then "business".data
  else if ["t-shirt", "jeans", "sneakers", "hoodie", "shorts"].any
      (fun w => pyContains name w.data) then "casual".data
  else if ["activewear", "joggers", "tank", "gym", "sport"].any
      (fun w => pyContains name w.data) then "sport".data
  else "casual".data

/-- The colour synonym table of `OutfitService._standardize_color`, in
source order (Python dicts iterate in insertion order). -/
def color_map : List (PStr × List PStr) :=
  [("navy".data, ["navy".data, "dark blue".data, "deep blue".data]),
   ("blue".data, ["blue".data, "light blue".data, "sky blue".data]),
   ("black".data, ["black".data, "charcoal".data, "dark".data]),
   ("white".data, ["white".data, "ivory".data, "cream".data, "off-white".data]),
   ("gray".data, ["gray".data, "grey".data, "slate".data]),
   ("red".data, ["red".data, "crimson".data, "scarlet".data]),
   ("green".data, ["green".data, "olive".data, "emerald".data]),
   ("brown".data, ["brown".data, "tan".data, "beige".data, "khaki".data]),
   ("purple".data, ["purple".data, "violet".data, "lavender".data]),
   ("yellow".data, ["yellow".data, "gold".data, "mustard".data]),
   ("pink".data, ["pink".data, "rose".data, "blush".data]),
   ("orange".data, ["orange".data, "rust".data, "coral".data])]

/-- Model of `OutfitService._standardize_color`: the first canonical colour
one of whose variants occurs as a substring of the lowercased input, else
the lowercased input unchanged. -/
def standardize_color (color : PStr) : PStr :=
  let cl := pyLower color
  match color_map.find? (fun p => p.2.any (fun v => pyContains cl v)) with
  | some p => p.1
  | none => cl

/-- Model of `OutfitService._process_clothing_item` (the ObjectId-to-string
conversions are identity in this model).  Each detector receives the raw
item, exactly as in the source. -/
def process_clothing_item (item : Item) : Item :=
  { item with
    category := if item.category = [] then detect_category item else item.category
    subcategory := if item.subcategory = [] then detect_subcategory item else item.subcategory
    season := if item.season = [] then detect_seasonality item else item.season
    formality := if item.formality = [] then detect_formality item else item.formality
    material := if item.material ≠ [] then pyLower item.material else item.material
    color := if item.color ≠ [] then standardize_color item.color else item.color }

/-- Wardrobe items bucketed by category, as built by
`OutfitService._categorize_items`. -/
structure Buckets where
  tops : List Item
  bottoms : List Item
  dresses : List Item
  outerwear : List Item
  shoes : List Item
  accessories : List Item
  deriving DecidableEq

/-- The bucket `OutfitService._categorize_items` assigns to one item: the
first keyword family that matches the lowercased category or item name,
defaulting to `tops` (with a warning log) when nothing matches. -/
def os_bucket (item : Item) : PStr :=
  let category := pyLower item.category
  let name := pyLower item.item_name
  let hit := fun (w : String) => pyContains category w.data || pyContains name w.data
  if ["shirt", "top", "blouse", "t-shirt", "tee", "sweater", "tank", "polo", "jersey"].any hit
    then "tops".data
  else if ["pant", "jean", "trouser", "skirt", "short", "legging", "chino"].any hit
    then "bottoms".data
  else if ["dress", "gown", "jumpsuit", "romper"].any hit
    then "dresses".data
  else if ["jacket", "coat", "hoodie", "blazer", "cardigan", "vest", "parka", "windbreaker"].any hit
    then "outerwear".data
  else if ["shoe", "boot", "sandal", "sneaker", "heel", "flat", "loafer", "slipper"].any hit
    then "shoes".data
  else if ["accessory", "accessories", "bag", "hat", "cap", "scarf", "belt", "watch",
      "jewelry", "sunglass"].any hit
    then "accessories".data
  else "tops".data

/-- Model of `OutfitService._categorize_items`: each item lands in exactly
one bucket (the if/elif chain of `os_bucket`), appended in input order. -/
def categorize_items (items : List Item) : Buckets :=
  { tops := items.filter (fun i => os_bucket i = "tops".data)
    bottoms := items.filter (fun i => os_bucket i = "bottoms".data)
    dresses := items.filter (fun i => os_bucket i = "dresses".data)
    outerwear := items.filter (fun i => os_bucket i = "outerwear".data)
    shoes := items.filter (fun i => os_bucket i = "shoes".data)
    accessories := items.filter (fun i => os_bucket i = "accessories".data) }

/-! ## `app/services/outfit_service.py`: multi-factor scoring -/

def neutral_colors : List PStr :=
  ["black".data, "white".data, "gray".data, "navy".data, "beige".data, "brown".data]

def bright_colors : List PStr :=
  ["red".data, "yellow".data, "orange".data, "pink".data, "purple".data]

/-- Model of `OutfitService._calculate_color_score`. -/
def calculate_color_score (items : List Item) : ℚ :=
  if items = [] then 1/2
  else
    let colors := (items.filter (fun i => i.color ≠ [])).map (fun i => pyLower i.color)
    if colors = [] then 1/2
    else
      let s1 : ℚ := 1/2 + (if colors.eraseDups.length = 1 then 1/5 else 0)
      let s2 := s1 + (if (colors.take 2).any (fun c => neutral_colors.contains c) then 1/10 else 0)
      let brightCount := colors.countP (fun c => bright_colors.contains c)
      let s3 := s2 - (if 2 < brightCount then 1/10 else 0)
      min (max s3 0) 1

/-- The `formality_scores` table of `_calculate_occasion_score`, including
the `dict.get(_, 0.5)` default.  An item with a missing `formality` key gets
the default string `"casual"` in the source, which also scores `0.5`, so the
empty string soundly stands for a missing key. -/
def formality_score (f : PStr) : ℚ :=
  if f = "formal".data then 9/10
  else if f = "business".data then 7/10
  else if f = "casual".data then 1/2
  else if f = "sport".data then 3/10
  else 1/2

/-- The `occasion_targets` table of `_calculate_occasion_score`, including
the `dict.get(_, 0.5)` default. -/
def occasion_target (occ : PStr) : ℚ :=
  if occ = "formal".data then 4/5
  else if occ = "business".data then 7/10
  else if occ = "casual".data then 1/2
  else if occ = "sport".data then 3/10
  else if occ = "party".data then 3/5
  else if occ = "beach".data then 2/5
  else if occ = "date".data then 3/5
  else 1/2

/-- Model of `OutfitService._calculate_occasion_score`. -/
def calculate_occasion_score (items : List Item) (occasion : PStr) : ℚ :=
  if items = [] then 1/2
  else
    let formalities := items.map (fun i => formality_score i.formality)
    let avg := formalities.sum / formalities.length
    let target := occasion_target (pyLower occasion)
    min (max (1 - |avg - target|) 0) 1

/-- Per-item additive bonus of the first loop of
`OutfitService._calculate_weather_score` (weather category, then condition
adjustments, all inside the same loop in the source). -/
def weather_item_bonus (w : Weather) (item : Item) : ℚ :=
  let material := pyLower item.material
  let ctype := pyLower item.category
  let condition := pyLower w.condition
  (if w.category = "cold".data ∨ w.category = "freezing".data then
      (if ["wool", "fleece", "thermal", "down", "cashmere", "knit"].any
          (fun m => pyContains material m.data) then 3/20 else 0)
    + (if ["coat", "jacket", "sweater", "hoodie"].any (fun c => ctype = c.data)
        then 1/10 else 0)
    + (if ["parka", "puffer", "winter coat"].any (fun s => item.subcategory = s.data)
        then 1/5 else 0)
   else if w.category = "cool".data then
      (if ["cotton", "denim", "light wool"].any (fun m => pyContains material m.data)
        then 1/10 else 0)
    + (if ["jacket", "cardigan", "light sweater"].any (fun c => ctype = c.data)
        then 1/10 else 0)
   else if w.category = "hot".data ∨ w.category = "warm".data then
      (if ["cotton", "linen", "breathable", "light"].any (fun m => pyContains material m.data)
        then 3/20 else 0)
    + (if ["t-shirt", "shorts", "dress", "tank", "skirt"].any (fun c => ctype = c.data)
        then 1/10 else 0)
    + (if pyContains (pyLower item.item_name) "sleeveless".data then 1/20 else 0)
   else 0)
  + (if pyContains condition "rain".data then
      (if pyContains material "waterproof".data ∨ pyContains ctype "rain".data
        then 1/4 else 0)
    + (if ctype = "shoes".data ∧ pyContains material "waterproof".data = true
        then 1/5 else 0)
     else 0)
  + (if pyContains condition "snow".data then
      (if ["waterproof", "insulated", "thermal"].any (fun m => pyContains material m.data)
        then 3/10 else 0)
    + (if ["snow boots", "winter boots"].any (fun s => item.subcategory = s.data)
        then 1/5 else 0)
     else 0)
  + (if pyContains condition "wind".data then
      (if (ctype = "jacket".data ∨ ctype = "coat".data) ∧ pyContains material "wind".data = true
        then 3/20 else 0)
     else 0)
  + (if pyContains condition "sun".data ∨ pyContains condition "clear".data then
      (if ctype = "hat".data ∨ ctype = "cap".data then 1/10 else 0)
     else 0)

/-- Per-item penalty of the second loop of
`OutfitService._calculate_weather_score`. -/
def weather_item_penalty (w : Weather) (item : Item) : ℚ :=
  let material := pyLower item.material
  let ctype := pyLower item.category
  (if w.category = "hot".data ∨ w.category = "warm".data then
      (if ["wool", "fleece", "thermal"].any (fun m => pyContains material m.data)
        then 1/10 else 0)
    + (if ctype = "coat".data ∨ ctype = "heavy jacket".data then 3/20 else 0)
   else 0)
  + (if w.category = "cold".data ∨ w.category = "freezing".data then
      (if ["linen", "light cotton"].any (fun m => pyContains material m.data)
        then 1/10 else 0)
    + (if ["shorts", "tank", "sleeveless"].any (fun c => ctype = c.data) then 1/5 else 0)
     else 0)

/-- Model of `OutfitService._calculate_weather_score`; `none` stands for a
falsy `weather_data` (the weather source returned nothing). -/
def calculate_weather_score (items : List Item) (weather : Option Weather) : ℚ :=
  match weather with
  | none => 1/2
  | some w =>
      if items = [] then 1/2
      else
        min (max (1/2 + (items.map (weather_item_bonus w)).sum
                      - (items.map (weather_item_penalty w)).sum) 0) 1

/-- The nested `scores` dictionary returned by `OutfitService.score_outfit`. -/
structure Scores where
  style_score : ℚ
  color_score : ℚ
  occasion_score : ℚ
  weather_score : ℚ
  combined_score : ℚ
  deriving DecidableEq

/-- A scored outfit as stored by the generation loop.  `scores` is the
nested dictionary built by `score_outfit`; `top_weather_score` and
`top_combined_score` are the top-level keys that `generate_suggestions`
adds only when weather data is present (the analysis strings are omitted). -/
structure ScoredOutfit where
  items : List Item
  occasion : PStr
  scores : Scores
  is_weather_appropriate : Bool
  top_weather_score : Option ℚ
  top_combined_score : Option ℚ
  deriving DecidableEq

/-- Model of `OutfitService.score_outfit`.  The style score is
`random.uniform(0.6, 0.95)` in the source; the random draw is passed in as
`style_score`.  The unused `user_id` parameter is dropped.  When
`weather_data` is falsy the source keeps the initial `weather_score = 1.0`
and never calls `_calculate_weather_score`. -/
def score_outfit (style_score : ℚ) (outfit : Outfit) (occasion : PStr)
    (weather : Option Weather) : ScoredOutfit :=
  let items := outfit.items
  let color_score := calculate_color_score items
  let occasion_score := calculate_occasion_score items occasion
  let weather_score : ℚ :=
    match weather with
    | none => 1
    | some w => calculate_weather_score items (some w)
  let combined_score := style_score * (3/10) + color_score * (1/4)
    + occasion_score * (1/4) + weather_score * (1/5)
  { items := items
    occasion := outfit.occasion
    scores :=
      { style_score := pyRound 2 style_score
        color_score := pyRound 2 color_score
        occasion_score := pyRound 2 occasion_score
        weather_score := pyRound 2 weather_score
        combined_score := pyRound 2 combined_score }
    is_weather_appropriate := decide (3/5 ≤ weather_score)
    top_weather_score := none
    top_combined_score := none }

/-- The block of `generate_suggestions` that runs after scoring when
weather data is present: it recomputes the weather score and a top-level
combined score.  The per-dimension scores live under the nested `scores`
key, so the top-level `scored_outfit.get('style_score', 0.7)` (and the
colour/occasion analogues) always yield the default `0.7`. -/
def add_weather_block (so : ScoredOutfit) (weather : Option Weather) : ScoredOutfit :=
  match weather with
  | none => so
  | some w =>
      let ws := calculate_weather_score so.items (some w)
      let cs : ℚ := (7/10) * (3/10) + (7/10) * (1/4) + (7/10) * (1/4) + ws * (1/5)
      { so with
        top_weather_score := some ws
        top_combined_score := some cs
        is_weather_appropriate := decide (3/5 ≤ ws) }

/-! ## `app/services/outfit_service.py`: the generation loop -/

/-- The validity test of `OutfitService._is_outfit_valid` as a function of
the outfit's item list (the `occasion` parameter is unused in the source). -/
def valid_items (items : List Item) : Bool :=
  if items.length < 2 then false
  else if items.any (fun i => pyLower i.category = "dresses".data) then true
  else
    (items.any (fun i =>
      ["tops", "shirt", "blouse", "t-shirt", "sweater"].any
        (fun c => pyLower i.category = c.data))) &&
    (items.any (fun i =>
      ["bottoms", "pants", "jeans", "skirt", "shorts"].any
        (fun c => pyLower i.category = c.data)))

/-- Model of `OutfitService._is_outfit_valid`. -/
def is_outfit_valid (outfit : Outfit) : Bool := valid_items outfit.items

/-- The deduplication signature of `generate_suggestions`: the sorted tuple
of the outfit's item identifiers. -/
def signature_of (items : List Item) : List PStr :=
  sortBy pstrLe (items.map (·.id))

/-- The `while` loop of `OutfitService.generate_suggestions`, with the two
random sources made explicit: `gen n` is the outfit built by
`_create_outfit_from_categories` at attempt `n` (`none` when the attempt
produced fewer than 2 items), and `style n` is the `random.uniform(0.6, 0.95)`
draw of `score_outfit` at attempt `n`.  The fuel argument equals
`max_attempts - attempts`, so the loop condition `attempts < max_attempts`
is the fuel being positive; each iteration increments `attempts` exactly
once.  Returns the accumulated outfits and the final `attempts` counter. -/
def generate_aux (gen : ℕ → Option Outfit) (style : ℕ → ℚ) (occasion : PStr)
    (weather : Option Weather) (count : ℕ) :
    ℕ → ℕ → List ScoredOutfit → List (List PStr) → (List ScoredOutfit × ℕ)
  | 0, attempts, outfits, _ => (outfits, attempts)
  | remaining + 1, attempts, outfits, seen =>
      if outfits.length < count then
        match gen attempts with
        | some outfit =>
            if is_outfit_valid outfit then
              let sig := signature_of outfit.items
              if sig ∈ seen then
                generate_aux gen style occasion weather count remaining (attempts + 1)
                  outfits seen
              else
                let scored := add_weather_block
                  (score_outfit (style attempts) outfit occasion weather) weather
                generate_aux gen style occasion weather count remaining (attempts + 1)
                  (outfits ++ [scored]) (seen ++ [sig])
            else
              generate_aux gen style occasion weather count remaining (attempts + 1)
                outfits seen
        | none =>
            generate_aux gen style occasion weather count remaining (attempts + 1)
              outfits seen
      else (outfits, attempts)

/-- Model of the generation phase of `OutfitService.generate_suggestions`
(the wardrobe has already been fetched and categorised; `gen` abstracts the
randomised `_create_outfit_from_categories`): run the retry loop with
`max_attempts = count * 20`, sort by the top-level
`x.get('combined_score', 0)` descending (stable) and return the first
`count`, together with the number of attempts performed. -/
def generate_suggestions_run (gen : ℕ → Option Outfit) (style : ℕ → ℚ)
    (occasion : PStr) (weather : Option Weather) (count : ℕ) :
    List ScoredOutfit × ℕ :=
  let r := generate_aux gen style occasion weather count (count * 20) 0 [] []
  ((sortBy (fun a b =>
      decide (b.top_combined_score.getD 0 ≤ a.top_combined_score.getD 0)) r.1).take count,
   r.2)

/-! ## `app/services/fashion_ai_service.py`: similarity search -/

/-- Dot product of two equal-length vectors (`np.dot` on 1-d arrays). -/
def dotQ (a b : List ℚ) : ℚ := ((a.zip b).map (fun p => p.1 * p.2)).sum

/-- An item paired with the `similarity_score` key added by
`find_similar_items` (`{**item, 'similarity_score': round(similarity, 3)}`). -/
structure ScoredItem where
  item : Item
  similarity_score : ℚ
  deriving DecidableEq

/-- Model of `FashionAIService.find_similar_items`.  `np.dot` raises
`ValueError` as soon as it meets a candidate embedding whose length differs
from the query's; the surrounding `try/except` catches it and the whole call
returns `[]` — hence the leading length-mismatch test.  Otherwise each
candidate with a non-`None` embedding is scored, kept if its (unrounded)
similarity is at least `min_similarity`, sorted by the stored (rounded)
score descending with Python's stable sort, and cut by the Python slice
`[:top_k]` (which, for negative `top_k`, drops trailing elements instead of
failing). -/
def find_similar_items (query : List ℚ) (wardrobe_items : List Item)
    (top_k : ℤ) (min_similarity : ℚ) : List ScoredItem :=
  if wardrobe_items.any (fun i =>
      match i.embedding with
      | some e => decide (e.length ≠ query.length)
      | none => false) then []
  else
    let similarities := wardrobe_items.filterMap (fun i =>
      match i.embedding with
      | none => none
      | some e =>
          let s := dotQ query e
          if min_similarity ≤ s then some ⟨i, pyRound 3 s⟩ else none)
    pySliceTo top_k
      (sortBy (fun a b => decide (b.similarity_score ≤ a.similarity_score)) similarities)

/-! ## `app/services/personalized_ai_service.py`: history mining -/

/-- An item snapshot inside an outfit-history entry. -/
structure HistItem where
  id : PStr
  category : PStr
  color : PStr
  deriving DecidableEq

/-- An outfit-history entry, as read by `_analyze_user_history`:
`outfit_items`, the favourite flag, the optional rating and the value of
`outfit.get("occasion", "casual")`. -/
structure HistEntry where
  outfit_items : List HistItem
  is_favorite : Bool
  rating : Option ℚ
  occasion : PStr
  deriving DecidableEq

/-- The per-entry outfit score of `_analyze_user_history`:
`5.0 if is_favorite else (float(rating) if rating else 3.0)`.  A present
rating of `0` is falsy in Python and falls back to `3.0`. -/
def outfit_score (e : HistEntry) : ℚ :=
  if e.is_favorite then 5
  else match e.rating with
    | some r => if r = 0 then 3 else r
    | none => 3

/-- The colour key under which an item is accumulated:
`str(item.get("color", "")).lower().strip()`. -/
def hist_color_key (i : HistItem) : PStr := pyStrip (pyLower i.color)

/-- The colour validity test of `_analyze_user_history`:
`if color and color not in ["", "none", "unknown"]`. -/
def hist_color_ok (c : PStr) : Bool :=
  c ≠ [] && c ≠ "none".data && c ≠ "unknown".data

/-- Entries surviving the `if not outfit.get("outfit_items"): continue` skip. -/
def valid_entries (history : List HistEntry) : List HistEntry :=
  history.filter (fun e => e.outfit_items ≠ [])

/-- The stream of `(colour key, outfit score)` contributions produced by the
entry/item double loop of `_analyze_user_history`: one contribution per
item occurrence with a valid colour, in iteration order. -/
def color_contribs (history : List HistEntry) : List (PStr × ℚ) :=
  (valid_entries history).flatMap (fun e =>
    e.outfit_items.filterMap (fun i =>
      if hist_color_ok (hist_color_key i) then some (hist_color_key i, outfit_score e)
      else none))

/-- The `color_scores` defaultdict of `_analyze_user_history`, as an
insertion-ordered association list. -/
def color_scores_of (history : List HistEntry) : List (PStr × ℚ) :=
  (color_contribs history).foldl (fun acc p => addToAssoc acc p.1 p.2) []

/-- The `favorite_colors` output of `_analyze_user_history`: colours sorted
by accumulated score descending (stable), top 10. -/
def favorite_colors_of (history : List HistEntry) : List PStr :=
  ((sortBy (fun a b => decide (b.2 ≤ a.2)) (color_scores_of history)).map (·.1)).take 10

/-- The category key of a history item:
`str(item.get("category", "")).lower().strip()`. -/
def hist_category_key (i : HistItem) : PStr := pyStrip (pyLower i.category)

/-- Python's `"+".join(sorted(set(cats)))`: the distinct category strings in
ascending lexicographic order, joined with `+`.  `List.eraseDups` keeps
first occurrences; sorting by `pstrLe` then yields the same string as
Python's `sorted(set(..))` because distinct strings are totally ordered. -/
def combo_string (cats : List PStr) : PStr :=
  ((sortBy pstrLe cats.eraseDups).intersperse "+".data).flatten

/-- The per-entry category list (categories of items with a truthy
`category` field, in item order). -/
def entry_categories (e : HistEntry) : List PStr :=
  (e.outfit_items.filter (fun i => hist_category_key i ≠ [])).map hist_category_key

/-- The `category_combinations` counter of `_analyze_user_history`. -/
def combo_counts_of (history : List HistEntry) : List (PStr × ℕ) :=
  (valid_entries history).foldl (fun acc e =>
    let cats := entry_categories e
    if 2 ≤ cats.length then incAssoc acc (combo_string cats) else acc) []

/-- The `item_wear_count` counter of `_analyze_user_history` (one increment
per item occurrence with a truthy id). -/
def wear_counts_of (history : List HistEntry) : List (PStr × ℕ) :=
  ((valid_entries history).flatMap (fun e =>
      e.outfit_items.filterMap (fun i => if i.id ≠ [] then some i.id else none))).foldl
    incAssoc []

/-- The `occasion_count` counter of `_analyze_user_history`. -/
def occasion_counts_of (history : List HistEntry) : List (PStr × ℕ) :=
  (valid_entries history).foldl (fun acc e => incAssoc acc e.occasion) []

/-- The `color_ratings` defaultdict: for each valid colour, the ratings of
the entries containing it that carry a truthy rating. -/
def color_ratings_of (history : List HistEntry) : List (PStr × List ℚ) :=
  ((valid_entries history).flatMap (fun e =>
      match e.rating with
      | some r =>
          if r ≠ 0 then
            e.outfit_items.filterMap (fun i =>
              if hist_color_ok (hist_color_key i) then some (hist_color_key i, r) else none)
          else []
      | none => [])).foldl (fun acc p => pushAssoc acc p.1 p.2) []

/-- The mined preference profile (`preferences` dictionary) fields used by
the re-ranker.  `most_worn_items` keeps only the keys of the top-10 dict:
the scorer only ever tests key membership. -/
structure Prefs where
  favorite_colors : List PStr
  preferred_combinations : List PStr
  most_worn_items : List PStr
  occasion_preferences : List (PStr × ℚ)
  average_ratings : List (PStr × ℚ)
  deriving DecidableEq

/-- Model of `PersonalizedAIService._analyze_user_history` (the fields the
re-ranker reads).  The `wardrobe_items` parameter is unused in the source
body and dropped here. -/
def analyze_user_history (history : List HistEntry) : Prefs :=
  if history = [] then
    { favorite_colors := [], preferred_combinations := [], most_worn_items := []
      occasion_preferences := [], average_ratings := [] }
  else
    let combos := combo_counts_of history
    let wear := wear_counts_of history
    let occs := occasion_counts_of history
    let total := (occs.map (·.2)).sum
    { favorite_colors := favorite_colors_of history
      preferred_combinations :=
        ((sortBy (fun a b => decide (b.2 ≤ a.2)) combos).map (·.1)).take 5
      most_worn_items :=
        ((sortBy (fun a b => decide (b.2 ≤ a.2)) wear).map (·.1)).take 10
      occasion_preferences :=
        if 0 < total then occs.map (fun p => (p.1, (p.2 : ℚ) / total)) else []
      average_ratings :=
        (color_ratings_of history).filterMap (fun p =>
          if p.2 ≠ [] then some (p.1, p.2.sum / p.2.length) else none) }

/-! ## `app/services/personalized_ai_service.py`: combination building and
personalised re-ranking -/

/-- The bucket `PersonalizedAIService._categorize_items` assigns to one
item.  Its keyword lists differ from the outfit service's; the fallback
first tries the raw category as a bucket name, then defaults to `tops`. -/
def ps_bucket (item : Item) : PStr :=
  let category := pyLower item.category
  let name := pyLower item.item_name
  let hit := fun (w : String) => pyContains category w.data || pyContains name w.data
  if ["shirt", "t-shirt", "blouse", "top", "sweater", "hoodie", "jersey", "polo",
      "tank"].any hit then "tops".data
  else if ["jeans", "pants", "trousers", "skirt", "shorts", "leggings", "chinos"].any hit
    then "bottoms".data
  else if ["dress", "jumpsuit", "romper", "gown"].any hit then "dresses".data
  else if ["jacket", "coat", "blazer", "cardigan", "vest", "parka", "outerwear"].any hit
    then "outerwear".data
  else if ["shoes", "sneakers", "boots", "sandals", "heels", "flats", "loafers"].any hit
    then "shoes".data
  else if ["belt", "scarf", "hat", "bag", "wallet", "watch", "jewelry",
      "accessories"].any hit then "accessories".data
  else if ["tops", "bottoms", "dresses", "outerwear", "shoes", "accessories"].any
      (fun c => category = c.data) then category
  else "tops".data

/-- Model of `PersonalizedAIService._categorize_items`. -/
def ps_categorize_items (items : List Item) : Buckets :=
  { tops := items.filter (fun i => ps_bucket i = "tops".data)
    bottoms := items.filter (fun i => ps_bucket i = "bottoms".data)
    dresses := items.filter (fun i => ps_bucket i = "dresses".data)
    outerwear := items.filter (fun i => ps_bucket i = "outerwear".data)
    shoes := items.filter (fun i => ps_bucket i = "shoes".data)
    accessories := items.filter (fun i => ps_bucket i = "accessories".data) }

/-- The `occasion_keywords` table of `_calculate_style_score`. -/
def ps_occasion_keywords (occ : PStr) : Option (List String) :=
  if occ = "formal".data then some ["suit", "dress", "blazer", "tie", "heels"]
  else if occ = "casual".data then some ["jeans", "t-shirt", "sneakers", "shorts"]
  else if occ = "business".data then some ["trousers", "shirt", "blazer", "slacks"]
  else none

/-- Model of `PersonalizedAIService._calculate_style_score` (the base score,
before personalisation): 50, +20 for at most two distinct colours, +15 for a
temperature-appropriate material, +10 per item whose name matches an
occasion keyword; capped at 100 (no lower clamp in the source). -/
def ps_calculate_style_score (items : List Item) (weather : Option Weather)
    (occasion : PStr) : ℚ :=
  let colors := (items.filter (fun i => i.color ≠ [])).map (fun i => pyLower i.color)
  let s2 : ℚ := 50 + (if colors ≠ [] ∧ colors.eraseDups.length ≤ 2 then 20 else 0)
  let s3 := s2 +
    (match weather with
     | none => 0
     | some w =>
        let materials := (items.filter (fun i => i.material ≠ [])).map
          (fun i => pyLower i.material)
        if w.temperature < 10 then
          (if materials.any (fun m =>
              ["wool", "fleece", "down", "thermal", "knit"].any (fun x => m = x.data))
            then 15 else 0)
        else if 25 < w.temperature then
          (if materials.any (fun m =>
              ["cotton", "linen", "breathable", "light"].any (fun x => m = x.data))
            then 15 else 0)
        else 0)
  let s4 := s3 +
    (match ps_occasion_keywords (pyLower occasion) with
     | none => 0
     | some ks =>
        10 * ((items.countP (fun i =>
          ks.any (fun k => pyContains (pyLower i.item_name) k.data)) : ℚ)))
  min s4 100

/-- An outfit combination built by `_create_outfit_combinations`. -/
structure ComboOutfit where
  items : List Item
  otype : PStr
  style_score : ℚ
  deriving DecidableEq

/-- Model of `PersonalizedAIService._create_outfit_combinations`: all
`top x bottom x shoe` triples over the first 5/5/3 bucket entries (when all
three buckets are non-empty), then all `dress x shoe` pairs over the first
5/3, sorted by style score descending (stable). -/
def ps_create_outfit_combinations (b : Buckets) (weather : Option Weather)
    (occasion : PStr) : List ComboOutfit :=
  let separates :=
    if b.tops ≠ [] ∧ b.bottoms ≠ [] ∧ b.shoes ≠ [] then
      (b.tops.take 5).flatMap (fun t =>
        (b.bottoms.take 5).flatMap (fun bo =>
          (b.shoes.take 3).map (fun s =>
            { items := [t, bo, s], otype := "separates".data
              style_score := ps_calculate_style_score [t, bo, s] weather occasion })))
    else []
  let dressOutfits :=
    if b.dresses ≠ [] ∧ b.shoes ≠ [] then
      (b.dresses.take 5).flatMap (fun d =>
        (b.shoes.take 3).map (fun s =>
          { items := [d, s], otype := "dress_outfit".data
            style_score := ps_calculate_style_score [d, s] weather occasion }))
    else []
  sortBy (fun a b => decide (b.style_score ≤ a.style_score)) (separates ++ dressOutfits)

/-- Model of `PersonalizedAIService._calculate_personalized_score` on the
outfit's item list.  The `user_preferences` argument at every call site is a
non-empty dict (hence truthy), so only the empty-items early return is
modelled; the item-id membership `str(item.get("_id","")) in most_worn or
str(item.get("id","")) in most_worn` is modelled through the single resolved
`id` field. -/
def ps_calculate_personalized_score (items : List Item) (prefs : Prefs)
    (occasion : PStr) : ℚ :=
  if items = [] then 50
  else
    let outfit_colors := (items.filter (fun i => i.color ≠ [])).map (fun i => pyLower i.color)
    let s1 : ℚ := 50 +
      (if prefs.favorite_colors ≠ [] then
        (if outfit_colors ≠ [] then
          ((outfit_colors.countP (fun c => prefs.favorite_colors.contains c) : ℚ)
            / outfit_colors.length) * 30
         else 0)
       else 0)
    let outfit_categories := (items.filter (fun i => i.category ≠ [])).map
      (fun i => pyLower i.category)
    let s2 := s1 +
      (if prefs.preferred_combinations ≠ [] then
        (if 2 ≤ outfit_categories.length then
          (if prefs.preferred_combinations.contains (combo_string outfit_categories)
            then 20 else 0)
         else 0)
       else 0)
    let s3 := s2 +
      (if prefs.most_worn_items ≠ [] then
        ((items.countP (fun i => prefs.most_worn_items.contains i.id) : ℚ)
          / items.length) * 20
       else 0)
    let s4 := s3 +
      (match lookupAssoc prefs.occasion_preferences (pyLower occasion) with
       | some wgt => wgt * 15
       | none => 0)
    let ratings := outfit_colors.filterMap (fun c => lookupAssoc prefs.average_ratings c)
    let s5 := s4 +
      (if prefs.average_ratings ≠ [] then
        (if ratings ≠ [] then ((ratings.sum / ratings.length - 1) / 4) * 15 else 0)
       else 0)
    min (max s5 0) 100

/-- An outfit as returned by `_generate_recommendations`:
`base_style_score` is the `style_score` value read before the personalised
branch overwrites it; `style_score` is the final value of that key. -/
structure RankedOutfit where
  items : List Item
  otype : PStr
  base_style_score : ℚ
  style_score : ℚ
  personalized_score : Option ℚ
  combined_score : Option ℚ
  history_based : Bool
  deriving DecidableEq

/-- The dictionary returned by `_generate_recommendations`. -/
structure RecOut where
  outfits : List RankedOutfit
  total_combinations : ℕ
  occasion : PStr
  weather_considered : Bool
  personalization_active : Bool
  deriving DecidableEq

/-- Model of `PersonalizedAIService._generate_recommendations`.  The
`user_preferences` argument is always a (truthy) dict at the call site, so
the personalised branch runs iff `favorite_colors` is non-empty; the
human-readable `reasoning` strings attached to the top 10 outfits do not
affect any score and are omitted.  The `style_preferences` parameter is
unused in the source body. -/
def ps_generate_recommendations (wardrobe_items : List Item)
    (weather : Option Weather) (occasion : PStr)
    (_style_preferences : List PStr) (specific_items : Option (List PStr))
    (prefs : Prefs) : RecOut :=
  let filtered :=
    match specific_items with
    | some specs =>
        if specs ≠ [] then
          wardrobe_items.filter (fun i =>
            specs.contains i.id || specs.contains i.item_type)
        else wardrobe_items
    | none => wardrobe_items
  let categorized := ps_categorize_items filtered
  let outfits := ps_create_outfit_combinations categorized weather occasion
  let ranked :=
    if 0 < prefs.favorite_colors.length then
      sortBy (fun a b =>
          decide (b.combined_score.getD b.style_score ≤ a.combined_score.getD a.style_score))
        (outfits.map (fun o =>
          let p := ps_calculate_personalized_score o.items prefs occasion
          let c := o.style_score * (2/5) + p * (3/5)
          { items := o.items, otype := o.otype, base_style_score := o.style_score
            style_score := c, personalized_score := some p, combined_score := some c
            history_based := true }))
    else
      outfits.map (fun o =>
        { items := o.items, otype := o.otype, base_style_score := o.style_score
          style_score := o.style_score, personalized_score := none
          combined_score := none, history_based := false })
  { outfits := ranked.take 5
    total_combinations := ranked.length
    occasion := occasion
    weather_considered := weather.isSome
    personalization_active := 0 < prefs.favorite_colors.length }

/-! ## Service entry point and route -/

/-- The fields of a user document read by the service. -/
structure User where
  style_preferences : List PStr
  deriving DecidableEq

/-- The structured result of
`PersonalizedAIService.get_personalized_recommendations`. -/
structure SvcResult where
  success : Bool
  error : Option PStr
  suggestion : Option PStr
  recommendations : Option RecOut
  deriving DecidableEq

/-- Model of `PersonalizedAIService.get_personalized_recommendations` with
the environment made explicit: `user` is the user-lookup result, `wardrobe`
the fetched clothing items, `history` the fetched outfit history and
`weather` the (possibly absent) weather snapshot.  Every failure path
returns a structured `success = false` dictionary; nothing is raised. -/
def get_personalized_recommendations (user : Option User) (wardrobe : List Item)
    (history : List HistEntry) (weather : Option Weather)
    (occasion : Option PStr) (specific_items : Option (List PStr)) : SvcResult :=
  match user with
  | none =>
      { success := false, error := some "User not found".data
        suggestion := none, recommendations := none }
  | some u =>
      if wardrobe = [] then
        { success := false, error := some "No clothing items in wardrobe".data
          suggestion := some "Add some items to your wardrobe first!".data
          recommendations := none }
      else
        let prefs := analyze_user_history history
        let occ :=
          match occasion with
          | some o => if o ≠ [] then o else "casual".data
          | none => "casual".data
        let recs := ps_generate_recommendations wardrobe weather occ
          u.style_preferences specific_items prefs
        { success := true, error := none, suggestion := none
          recommendations := some recs }

/-- The JSON body produced by the `/ai-recommendations/personalized` route
(the fields relevant to the claims). -/
structure RouteResp where
  success : Bool
  error : Option PStr
  suggestion : Option PStr
  outfits : List RankedOutfit
  total_combinations : ℕ
  weather_considered : Bool
  deriving DecidableEq

/-- Model of the result handling in the route
`get_personalized_recommendations` of `app/routes/ai_recommendations.py`:
a non-success service result is mapped to a 200 response with
`success = false` and an empty `outfits` list (with the wardrobe-specific
branch selected by the substring tests on the error message); a success
result is passed through. -/
def route_get_personalized (svc : SvcResult) (location : Option PStr) : RouteResp :=
  if svc.success then
    { success := true, error := none, suggestion := none
      outfits := (svc.recommendations.map (·.outfits)).getD []
      total_combinations := (svc.recommendations.map (·.total_combinations)).getD 0
      weather_considered := (svc.recommendations.map (·.weather_considered)).getD false }
  else
    let err := svc.error.getD "AI service failed".data
    if pyContains err "No clothing items".data ∨ pyContains (pyLower err) "wardrobe".data then
      { success := false, error := some err
        suggestion := some (svc.suggestion.getD "Add items to your wardrobe first!".data)
        outfits := [], total_combinations := 0
        weather_considered := location.isSome }
    else
      { success := false, error := some err, suggestion := none
        outfits := [], total_combinations := 0, weather_considered := false }

/-! ## Claim C10: colour standardisation -/

/-- Claim C10: `_standardize_color` is idempotent and lowercase-normalising:
applying it twice equals applying it once, the result is entirely lowercase
(lowercasing it again changes nothing), and the result is either one of the
twelve canonical colour names or the lowercased input unchanged. -/
theorem claim_C10_standardize_color_idempotent_lowercase (c : PStr) :
    standardize_color (standardize_color c) = standardize_color c ∧
    pyLower (standardize_color c) = standardize_color c ∧
    (standardize_color c ∈ color_map.map (·.1) ∨ standardize_color c = pyLower c) := by
  cases hfind : color_map.find? (fun p => p.2.any (fun v => pyContains (pyLower c) v)) with
  | none =>
      have hres : standardize_color c = pyLower c := by
        simp only [standardize_color]
        rw [hfind]
      rw [hres]
      refine ⟨?_, pyLower_idem c, Or.inr rfl⟩
      simp only [standardize_color]
      rw [pyLower_idem, hfind]
  | some p =>
      have hres : standardize_color c = p.1 := by
        simp only [standardize_color]
        rw [hfind]
      have hmem : p ∈ color_map := List.mem_of_find?_eq_some hfind
      rw [hres]
      refine ⟨?_, ?_, Or.inl (List.mem_map.mpr ⟨p, hmem, rfl⟩)⟩ <;>
      · simp only [color_map, List.mem_cons, List.not_mem_nil, or_false] at hmem
        rcases hmem with h | h | h | h | h | h | h | h | h | h | h | h <;>
          (subst h; decide)

/-! ## Claim C8: default category of unmatched items -/

/-- Every keyword of the fixed keyword-to-category tables: the table of
`_detect_category` followed by the additional words of `_categorize_items`. -/
def os_all_category_keywords : List String :=
  ["shirt", "t-shirt", "blouse", "top", "sweater", "hoodie", "jersey", "polo",
   "jeans", "pants", "trousers", "skirt", "shorts", "leggings", "chinos",
   "dress", "jumpsuit", "romper", "gown",
   "jacket", "coat", "blazer", "cardigan", "vest", "parka",
   "shoes", "sneakers", "boots", "sandals", "heels", "flats", "loafers",
   "belt", "scarf", "hat", "bag", "wallet", "watch", "jewelry",
   "tee", "tank", "pant", "jean", "trouser", "short", "legging", "chino",
   "windbreaker", "shoe", "boot", "sandal", "sneaker", "heel", "flat", "loafer",
   "slipper", "accessory", "accessories", "cap", "sunglass"]

theorem mem_of_all_contains {small big : List String}
    (h : small.all (fun w => big.contains w) = true) :
    ∀ w ∈ small, w ∈ big := by
  intro w hw
  exact List.mem_of_elem_eq_true (List.all_eq_true.mp h w hw)

/-- An item whose (lowercased) name contains no keyword from either
category table. -/
def unmatched_name (item : Item) : Prop :=
  ∀ w ∈ os_all_category_keywords, pyContains (pyLower item.item_name) w.data = false

/-- Keyword families never match the lowercased name of an unmatched item. -/
theorem any_hit_false_of_unmatched {item : Item} (h : unmatched_name item)
    {kws : List String} (hsub : kws.all (fun w => os_all_category_keywords.contains w) = true) :
    kws.any (fun w => pyContains (pyLower item.item_name) w.data) = false := by
  rw [List.any_eq_false]
  intro w hw
  rw [h w (mem_of_all_contains hsub w hw)]
  simp

/-- Amended claim C8: a raw item record (no explicit category) whose name
matches no keyword of either keyword-to-category table is enriched with the
category string `"other"` by `_detect_category` / `_process_clothing_item`;
the generation-time bucketing `_categorize_items` then places the item in
the `tops` bucket (its warning-logging default branch). -/
theorem claim_C8_unmatched_items_default (item : Item)
    (hcat : item.category = []) (hname : unmatched_name item) :
    detect_category item = "other".data ∧
    (process_clothing_item item).category = "other".data ∧
    os_bucket (process_clothing_item item) = "tops".data := by
  have hdet : detect_category item = "other".data := by
    simp only [detect_category]
    rw [any_hit_false_of_unmatched hname (by decide),
      any_hit_false_of_unmatched hname (by decide),
      any_hit_false_of_unmatched hname (by decide),
      any_hit_false_of_unmatched hname (by decide),
      any_hit_false_of_unmatched hname (by decide),
      any_hit_false_of_unmatched hname (by decide)]
    rfl
  have hproc : (process_clothing_item item).category = "other".data := by
    simp only [process_clothing_item, hcat, if_pos]
    exact hdet
  refine ⟨hdet, hproc, ?_⟩
  have hpname : (process_clothing_item item).item_name = item.item_name := rfl
  have hhit : ∀ kws : List String,
      kws.all (fun w => os_all_category_keywords.contains w) = true →
      (kws.all (fun w => pyContains (pyLower "other".data) w.data = false)) = true →
      kws.any (fun w =>
        pyContains (pyLower (process_clothing_item item).category) w.data ||
        pyContains (pyLower (process_clothing_item item).item_name) w.data) = false := by
    intro kws hsub hother
    rw [List.any_eq_false]
    intro w hw
    have h1 : pyContains (pyLower (process_clothing_item item).category) w.data = false := by
      rw [hproc]
      exact of_decide_eq_true (List.all_eq_true.mp hother w hw)
    have h2 : pyContains (pyLower (process_clothing_item item).item_name) w.data = false := by
      rw [hpname]
      exact hname w (mem_of_all_contains hsub w hw)
    simp [h1, h2]
  simp only [os_bucket]
  rw [hhit _ (by decide) (by decide), hhit _ (by decide) (by decide),
    hhit _ (by decide) (by decide), hhit _ (by decide) (by decide),
    hhit _ (by decide) (by decide), hhit _ (by decide) (by decide)]
  rfl

/-- A concrete raw garment record whose name matches no category keyword. -/
def poncho_item : Item :=
  { id := "p1".data, item_name := "Poncho".data, description := []
    category := [], subcategory := [], color := [], material := []
    formality := [], season := [], item_type := [], embedding := none }

/-- Counterexample to claim C8 as stated: the categoriser infers the
category string `"other"`, not `"tops"`, for an item matching no keyword. -/
theorem claim_C8_counterexample :
    detect_category poncho_item = "other".data ∧
    (process_clothing_item poncho_item).category = "other".data ∧
    "other".data ≠ "tops".data := by
  refine ⟨by decide, ?_, by decide⟩
  show (if poncho_item.category = [] then detect_category poncho_item
    else poncho_item.category) = "other".data
  decide

/-- Witness for claim C8's amended theorem at the concrete `poncho_item`. -/
theorem claim_C8_witness :
    os_bucket (process_clothing_item poncho_item) = "tops".data :=
  (claim_C8_unmatched_items_default poncho_item (by decide)
    (by unfold unmatched_name; decide)).2.2

/-! ## Claims C2 and C7: similarity search -/

/-- Rounding an integer is the identity. -/
theorem pyRound_intCast (d : ℕ) (n : ℤ) : pyRound d (n : ℚ) = n := by
  have h1 : ((n:ℚ) * 10 ^ d) = ((n * 10 ^ d : ℤ) : ℚ) := by push_cast; ring
  unfold pyRound roundHalfEven
  rw [h1, Int.floor_intCast]
  have h2 : ((n * 10 ^ d : ℤ) : ℚ) - ((n * 10 ^ d : ℤ) : ℚ) < 1/2 := by norm_num
  rw [if_pos h2]
  have h3 : ((10:ℚ)) ^ d ≠ 0 := by positivity
  push_cast
  field_simp

/-- Stable descending sort by a key: the output is pairwise sorted. -/
theorem pairwise_sortBy_key {κ : Type} [LinearOrder κ] (key : α → κ) (l : List α) :
    (sortBy (fun a b => decide (key b ≤ key a)) l).Pairwise (fun a b => key b ≤ key a) := by
  have h := pairwise_sortBy (fun a b => decide (key b ≤ key a))
    (fun a b => by rcases le_total (key b) (key a) with h | h <;> simp [h])
    (fun a b c hab hbc =>
      decide_eq_true (le_trans (of_decide_eq_true hbc) (of_decide_eq_true hab))) l
  exact h.imp (fun hab => of_decide_eq_true hab)

/-- The per-candidate scoring function of `find_similar_items`. -/
def sim_entry (query : List ℚ) (min_similarity : ℚ) (i : Item) : Option ScoredItem :=
  match i.embedding with
  | none => none
  | some e =>
      let s := dotQ query e
      if min_similarity ≤ s then some ⟨i, pyRound 3 s⟩ else none

theorem find_similar_items_eq (query : List ℚ) (items : List Item)
    (top_k : ℤ) (min_sim : ℚ)
    (hlen : ∀ i ∈ items, ∀ e, i.embedding = some e → e.length = query.length) :
    find_similar_items query items top_k min_sim =
      pySliceTo top_k (sortBy (fun a b => decide (b.similarity_score ≤ a.similarity_score))
        (items.filterMap (sim_entry query min_sim))) := by
  have hmis : (items.any fun i =>
      match i.embedding with
      | some e => decide (e.length ≠ query.length)
      | none => false) = false := by
    rw [List.any_eq_false]
    intro i hi
    cases he : i.embedding with
    | none => simp
    | some e =>
        simp only [decide_eq_true_eq, Bool.not_eq_true]
        exact fun hne => hne (hlen i hi e he)
  simp only [find_similar_items, hmis, Bool.false_eq_true, if_false]
  rfl

/-- When every contributing similarity is `-1`-bounded below, the scored
list covers exactly the items with a non-null embedding. -/
theorem filterMap_sim_entry_all (query : List ℚ) (items : List Item)
    (hlow : ∀ i ∈ items, ∀ e, i.embedding = some e → -1 ≤ dotQ query e) :
    (items.filterMap (sim_entry query (-1))).map (·.item) =
      items.filter (fun i => i.embedding.isSome) := by
  induction items with
  | nil => rfl
  | cons i t ih =>
      have ht : ∀ j ∈ t, ∀ e, j.embedding = some e → -1 ≤ dotQ query e :=
        fun j hj => hlow j (List.mem_cons_of_mem i hj)
      cases he : i.embedding with
      | none =>
          simp only [List.filterMap_cons, sim_entry, he, List.filter_cons,
            Option.isSome_none, Bool.false_eq_true, if_false]
          exact ih ht
      | some e =>
          have hcond : -1 ≤ dotQ query e := hlow i (List.mem_cons_self i t) e he
          simp only [List.filterMap_cons, sim_entry, he, if_pos hcond, List.filter_cons,
            Option.isSome_some, if_true, List.map_cons]
          rw [ih ht]

/-- Claim C2, amended: for a non-negative `top_k` and well-formed
(equal-length, `[-1, 1]`-bounded, as for normalised embeddings) candidate
vectors, `find_similar_items` returns only candidates with a non-null
embedding whose similarity is at least `min_similarity`, sorted descending
by the stored score, at most `top_k` of them; with `min_similarity = -1`
and `top_k` at least the number of embedded candidates it returns exactly
the embedded candidates, and with `min_similarity = 1.01` it returns `[]`. -/
theorem claim_C2_find_similar_items (query : List ℚ) (items : List Item)
    (top_k : ℤ) (min_sim : ℚ)
    (htk : 0 ≤ top_k)
    (hemb : ∀ i ∈ items, ∀ e, i.embedding = some e →
      e.length = query.length ∧ -1 ≤ dotQ query e ∧ dotQ query e ≤ 1) :
    (∀ s ∈ find_similar_items query items top_k min_sim,
        s.item ∈ items ∧ ∃ e, s.item.embedding = some e ∧
          min_sim ≤ dotQ query e ∧ s.similarity_score = pyRound 3 (dotQ query e)) ∧
    (find_similar_items query items top_k min_sim).Pairwise
      (fun a b => b.similarity_score ≤ a.similarity_score) ∧
    ((find_similar_items query items top_k min_sim).length : ℤ) ≤ top_k ∧
    (min_sim = -1 → (items.countP (fun i => i.embedding.isSome) : ℤ) ≤ top_k →
      List.Perm ((find_similar_items query items top_k min_sim).map (·.item))
        (items.filter (fun i => i.embedding.isSome))) ∧
    (min_sim = 101/100 → find_similar_items query items top_k min_sim = []) := by
  have hres := find_similar_items_eq query items top_k min_sim
    (fun i hi e he => (hemb i hi e he).1)
  set sims := items.filterMap (sim_entry query min_sim) with hsims
  set sorted := sortBy (fun a b : ScoredItem =>
    decide (b.similarity_score ≤ a.similarity_score)) sims with hsorted
  have hslice : find_similar_items query items top_k min_sim = sorted.take top_k.toNat := by
    rw [hres]; unfold pySliceTo; rw [if_pos htk]
  refine ⟨?_, ?_, ?_, ?_, ?_⟩
  · intro s hs
    rw [hslice] at hs
    have hs2 : s ∈ sorted := (List.take_sublist _ _).subset hs
    have hs3 : s ∈ sims := (perm_sortBy _ sims).mem_iff.mp hs2
    obtain ⟨i, hi, hfi⟩ := List.mem_filterMap.mp hs3
    cases he : i.embedding with
    | none =>
        simp only [sim_entry, he] at hfi
        exact Option.noConfusion hfi
    | some e =>
        simp only [sim_entry, he] at hfi
        by_cases hcond : min_sim ≤ dotQ query e
        · rw [if_pos hcond] at hfi
          cases hfi
          exact ⟨hi, e, he, hcond, rfl⟩
        · rw [if_neg hcond] at hfi
          cases hfi
  · rw [hslice]
    exact List.Pairwise.sublist (List.take_sublist _ _)
      (pairwise_sortBy_key (·.similarity_score) sims)
  · rw [hslice]
    have h1 : (sorted.take top_k.toNat).length ≤ top_k.toNat := by
      rw [List.length_take]; omega
    calc ((sorted.take top_k.toNat).length : ℤ) ≤ (top_k.toNat : ℤ) := by exact_mod_cast h1
      _ = top_k := Int.toNat_of_nonneg htk
  · intro hms hcount
    subst hms
    have hcover := filterMap_sim_entry_all query items
      (fun i hi e he => (hemb i hi e he).2.1)
    have hlen2 : sims.length ≤ top_k.toNat := by
      have hl1 : sims.length = (items.filter (fun i => i.embedding.isSome)).length := by
        rw [← hcover, List.length_map]
      have hl2 : (items.filter (fun i => i.embedding.isSome)).length =
          items.countP (fun i => i.embedding.isSome) := by
        rw [List.countP_eq_length_filter]
      omega
    have hall : sorted.take top_k.toNat = sorted := by
      apply List.take_of_length_le
      have hle := (perm_sortBy (fun a b : ScoredItem =>
        decide (b.similarity_score ≤ a.similarity_score)) sims).length_eq
      rw [← hsorted] at hle
      omega
    rw [hslice, hall]
    have hperm := (perm_sortBy (fun a b : ScoredItem =>
      decide (b.similarity_score ≤ a.similarity_score)) sims).map (·.item)
    rw [← hsorted, hcover] at hperm
    exact hperm
  · intro hms
    subst hms
    have hnil : sims = [] := by
      rw [hsims, List.filterMap_eq_nil_iff]
      intro i hi
      cases he : i.embedding with
      | none => simp only [sim_entry, he]
      | some e =>
          simp only [sim_entry, he]
          rw [if_neg]
          have := (hemb i hi e he).2.2
          linarith
    rw [hslice, hsorted, hnil]
    simp [sortBy]

/-- A minimal wardrobe item carrying only an embedding. -/
def sim_item_a : Item :=
  { id := "a".data, item_name := [], description := [], category := []
    subcategory := [], color := [], material := [], formality := []
    season := [], item_type := [], embedding := some [1] }

/-- A second embedded item, distinguishable by its identifier. -/
def sim_item_b : Item :=
  { sim_item_a with id := "b".data }

theorem sim_entry_a : sim_entry [1] (-1) sim_item_a =
    some ⟨sim_item_a, pyRound 3 (dotQ [1] [1])⟩ := by
  simp only [sim_entry, sim_item_a]
  rw [if_pos]
  norm_num [dotQ]

theorem sim_items_len_ok :
    ∀ i ∈ [sim_item_a], ∀ e, i.embedding = some e → e.length = List.length ([1] : List ℚ) := by
  intro i hi e he
  simp only [List.mem_singleton] at hi
  subst hi
  simp only [sim_item_a, Option.some.injEq] at he
  subst he
  rfl

/-- Counterexample to claim C2 as stated: the claim quantifies over every
`top_k`, but with `top_k = -1` and `min_similarity = -1` the call returns
`[]` even though the single candidate has a non-null embedding (the Python
slice `[:-1]` drops it), so it does not return "every candidate that has a
non-null embedding". -/
theorem claim_C2_counterexample :
    find_similar_items [1] [sim_item_a] (-1) (-1) = [] ∧
    sim_item_a.embedding.isSome = true := by
  refine ⟨?_, rfl⟩
  rw [find_similar_items_eq [1] [sim_item_a] (-1) (-1) sim_items_len_ok]
  rw [show ([sim_item_a].filterMap (sim_entry [1] (-1))) =
      [⟨sim_item_a, pyRound 3 (dotQ [1] [1])⟩] by
    rw [List.filterMap_cons, sim_entry_a]; rfl]
  rw [show sortBy (fun a b : ScoredItem =>
      decide (b.similarity_score ≤ a.similarity_score))
      [⟨sim_item_a, pyRound 3 (dotQ [1] [1])⟩] =
      [⟨sim_item_a, pyRound 3 (dotQ [1] [1])⟩] from rfl]
  unfold pySliceTo
  norm_num

/-- Witness for claim C2's amended theorem: at `min_similarity = 1.01` the
concrete one-candidate search returns the empty list. -/
theorem claim_C2_witness :
    find_similar_items [1] [sim_item_a] 5 (101/100) = [] := by
  refine (claim_C2_find_similar_items [1] [sim_item_a] 5 (101/100)
    (by norm_num) ?_).2.2.2.2 rfl
  intro i hi e he
  simp only [List.mem_singleton] at hi
  subst hi
  simp only [sim_item_a, Option.some.injEq] at he
  subst he
  refine ⟨rfl, ?_, ?_⟩ <;> norm_num [dotQ]

/-- Python slicing never lengthens a list. -/
theorem length_pySliceTo_le (k : ℤ) (l : List α) : (pySliceTo k l).length ≤ l.length := by
  unfold pySliceTo
  split <;> (rw [List.length_take]; omega)

/-- Amended claim C7: `find_similar_items` performs no contract validation
and never propagates an error.  A zero-length query makes every dot product
fail, the exception is caught, and the caller receives a normal empty list;
a negative `top_k` is applied as a Python slice, silently returning a
truncated (possibly non-empty) normal list. -/
theorem claim_C7_no_validation :
    (∀ (items : List Item) (k : ℤ) (ms : ℚ),
        (∃ i ∈ items, ∃ e, i.embedding = some e ∧ e ≠ []) →
        find_similar_items [] items k ms = []) ∧
    (∀ (query : List ℚ) (items : List Item) (ms : ℚ) (k : ℤ), k < 0 →
        (find_similar_items query items k ms).length ≤ items.length) := by
  constructor
  · rintro items k ms ⟨i, hi, e, he, hne⟩
    have hany : (items.any fun i =>
        match i.embedding with
        | some e => decide (e.length ≠ ([] : List ℚ).length)
        | none => false) = true := by
      rw [List.any_eq_true]
      refine ⟨i, hi, ?_⟩
      rw [he]
      simp only [decide_eq_true_eq]
      intro hlen
      exact hne (List.length_eq_zero.mp hlen)
    unfold find_similar_items
    rw [if_pos hany]
  · intro query items ms k _
    unfold find_similar_items
    split
    · simp
    · refine le_trans (length_pySliceTo_le _ _) ?_
      rw [(perm_sortBy _ _).length_eq]
      exact List.length_filterMap_le _ items

theorem sim_entry_b : sim_entry [1] (-1) sim_item_b =
    some ⟨sim_item_b, pyRound 3 (dotQ [1] [1])⟩ := by
  simp only [sim_entry, sim_item_b, sim_item_a]
  rw [if_pos]
  norm_num [dotQ]

/-- Counterexample to claim C7 as stated: a negative `top_k` is not
reported as a hard validation failure — the call returns a normal,
non-empty result list (all matches but the last); and a zero-length query
vector yields a normal empty list, not a propagated error. -/
theorem claim_C7_counterexample :
    find_similar_items [1] [sim_item_a, sim_item_b] (-1) (-1) =
      [⟨sim_item_a, pyRound 3 (dotQ [1] [1])⟩] ∧
    find_similar_items [] [sim_item_a] 5 (1/5) = [] := by
  constructor
  · rw [find_similar_items_eq [1] [sim_item_a, sim_item_b] (-1) (-1) ?hlen]
    case hlen =>
      intro i hi e he
      rcases List.mem_cons.mp hi with rfl | hi
      · simp only [sim_item_a, Option.some.injEq] at he; subst he; rfl
      · simp only [List.mem_singleton] at hi
        subst hi
        simp only [sim_item_b, sim_item_a, Option.some.injEq] at he
        subst he; rfl
    rw [show ([sim_item_a, sim_item_b].filterMap (sim_entry [1] (-1))) =
        [⟨sim_item_a, pyRound 3 (dotQ [1] [1])⟩, ⟨sim_item_b, pyRound 3 (dotQ [1] [1])⟩] by
      rw [List.filterMap_cons, sim_entry_a, List.filterMap_cons, sim_entry_b]; rfl]
    rw [show sortBy (fun a b : ScoredItem =>
        decide (b.similarity_score ≤ a.similarity_score))
        [⟨sim_item_a, pyRound 3 (dotQ [1] [1])⟩, ⟨sim_item_b, pyRound 3 (dotQ [1] [1])⟩] =
        [⟨sim_item_a, pyRound 3 (dotQ [1] [1])⟩, ⟨sim_item_b, pyRound 3 (dotQ [1] [1])⟩] by
      simp [sortBy, insertSorted]]
    unfold pySliceTo
    norm_num
  · unfold find_similar_items
    rw [if_pos]
    rw [List.any_eq_true]
    exact ⟨sim_item_a, List.mem_singleton.mpr rfl, by decide⟩

/-- Witness for claim C7's amended theorem at concrete inputs. -/
theorem claim_C7_witness :
    find_similar_items [] [sim_item_b] 3 (1/5) = [] :=
  claim_C7_no_validation.1 [sim_item_b] 3 (1/5)
    ⟨sim_item_b, List.mem_singleton.mpr rfl, [1], rfl, by simp⟩

/-! ## Claim C3: scoring without weather data -/

/-- Clamping `min (max x 0) hi` lands in `[0, hi]`. -/
theorem clamp_mem (x hi : ℚ) (h : 0 ≤ hi) :
    0 ≤ min (max x 0) hi ∧ min (max x 0) hi ≤ hi :=
  ⟨le_min (le_max_right x 0) h, min_le_right _ _⟩

theorem calculate_color_score_mem (items : List Item) :
    0 ≤ calculate_color_score items ∧ calculate_color_score items ≤ 1 := by
  simp only [calculate_color_score]
  split_ifs <;> norm_num

theorem calculate_occasion_score_mem (items : List Item) (occasion : PStr) :
    0 ≤ calculate_occasion_score items occasion ∧
      calculate_occasion_score items occasion ≤ 1 := by
  simp only [calculate_occasion_score]
  split_ifs <;> norm_num

/-- Amended claim C3: when the weather source returned nothing,
`score_outfit` assigns the weather dimension the value `1.0` — not the
neutral `0.5` (the helper `_calculate_weather_score` would return `0.5` for
missing weather, but `score_outfit` never calls it in that case) — and
still produces a combined score, which lies in `[0, 1]` whenever the random
style draw is inside its `uniform(0.6, 0.95)` range. -/
theorem claim_C3_weather_default (style : ℚ) (outfit : Outfit) (occasion : PStr) :
    (score_outfit style outfit occasion none).scores.weather_score = 1 ∧
    (score_outfit style outfit occasion none).scores.combined_score =
      pyRound 2 (style * (3/10) + calculate_color_score outfit.items * (1/4)
        + calculate_occasion_score outfit.items occasion * (1/4) + 1 * (1/5)) ∧
    (3/5 ≤ style → style ≤ 19/20 →
      0 ≤ (score_outfit style outfit occasion none).scores.combined_score ∧
      (score_outfit style outfit occasion none).scores.combined_score ≤ 1) := by
  refine ⟨?_, rfl, ?_⟩
  · show pyRound 2 (1 : ℚ) = 1
    simpa using pyRound_intCast 2 1
  · intro h1 h2
    obtain ⟨hc0, hc1⟩ := calculate_color_score_mem outfit.items
    obtain ⟨ho0, ho1⟩ := calculate_occasion_score_mem outfit.items occasion
    have heq : (score_outfit style outfit occasion none).scores.combined_score =
        pyRound 2 (style * (3/10) + calculate_color_score outfit.items * (1/4)
          + calculate_occasion_score outfit.items occasion * (1/4) + 1 * (1/5)) := rfl
    rw [heq]
    exact pyRound_mem_unit 2 _ (by linarith) (by linarith)

/-- A concrete outfit for the claim C3 counterexample and witness. -/
def c3_outfit : Outfit := ⟨[poncho_item, sim_item_a], "casual".data⟩

/-- Counterexample to claim C3 as stated: with no weather data available,
the weather dimension stored by `score_outfit` is `1.0`, not `0.5`. -/
theorem claim_C3_counterexample :
    (score_outfit (7/10) c3_outfit "casual".data none).scores.weather_score = 1 ∧
    (1 : ℚ) ≠ 1/2 := by
  refine ⟨?_, by norm_num⟩
  show pyRound 2 (1 : ℚ) = 1
  simpa using pyRound_intCast 2 1

/-- Witness for claim C3's amended theorem at a concrete outfit and style
draw. -/
theorem claim_C3_witness :
    0 ≤ (score_outfit (7/10) c3_outfit "casual".data none).scores.combined_score ∧
    (score_outfit (7/10) c3_outfit "casual".data none).scores.combined_score ≤ 1 :=
  (claim_C3_weather_default (7/10) c3_outfit "casual".data).2.2
    (by norm_num) (by norm_num)

/-! ## Claim C6: empty wardrobe -/

/-- Claim C6: for an existing user whose wardrobe holds zero items, the
service entry point returns a structured `success = false` result with no
recommendations, and the route turns it into a structured 200 body with
`success = false` and zero outfits.  Both functions are total: no exception
is raised for the missing wardrobe. -/
theorem claim_C6_empty_wardrobe (u : User) (history : List HistEntry)
    (weather : Option Weather) (occasion : Option PStr)
    (specific : Option (List PStr)) (location : Option PStr)
    (wardrobe : List Item) (hw : wardrobe = []) :
    (get_personalized_recommendations (some u) wardrobe history weather
      occasion specific).success = false ∧
    (get_personalized_recommendations (some u) wardrobe history weather
      occasion specific).recommendations = none ∧
    (route_get_personalized (get_personalized_recommendations (some u) wardrobe
      history weather occasion specific) location).success = false ∧
    (route_get_personalized (get_personalized_recommendations (some u) wardrobe
      history weather occasion specific) location).outfits = [] ∧
    (route_get_personalized (get_personalized_recommendations (some u) wardrobe
      history weather occasion specific) location).total_combinations = 0 := by
  subst hw
  exact ⟨rfl, rfl, rfl, rfl, rfl⟩

/-- Witness for claim C6 at a concrete user and environment. -/
theorem claim_C6_witness :
    (get_personalized_recommendations (some ⟨[]⟩) [] [] none none none).success = false :=
  (claim_C6_empty_wardrobe ⟨[]⟩ [] none none none none [] rfl).1

/-! ## Claims C1 and C9: the generation loop -/

theorem add_weather_block_items (so : ScoredOutfit) (w : Option Weather) :
    (add_weather_block so w).items = so.items := by
  cases w <;> rfl

theorem scored_items (s : ℚ) (o : Outfit) (occ : PStr) (w : Option Weather) :
    (add_weather_block (score_outfit s o occ w) w).items = o.items := by
  rw [add_weather_block_items]
  rfl

/-- Loop invariant of the generation loop: starting from a state whose
accumulated outfits are all valid, signature-distinct and signature-covered
by `seen`, the loop preserves validity and signature distinctness, performs
at most `remaining` further attempts, and never grows past `count`. -/
theorem generate_aux_spec (gen : ℕ → Option Outfit) (style : ℕ → ℚ) (occ : PStr)
    (w : Option Weather) (count : ℕ) :
    ∀ (remaining attempts : ℕ) (outfits : List ScoredOutfit) (seen : List (List PStr)),
      (∀ o ∈ outfits, valid_items o.items = true) →
      (outfits.map (fun o => signature_of o.items)).Nodup →
      (∀ o ∈ outfits, signature_of o.items ∈ seen) →
      (∀ o ∈ (generate_aux gen style occ w count remaining attempts outfits seen).1,
        valid_items o.items = true) ∧
      ((generate_aux gen style occ w count remaining attempts outfits seen).1.map
        (fun o => signature_of o.items)).Nodup ∧
      (generate_aux gen style occ w count remaining attempts outfits seen).2 ≤
        attempts + remaining ∧
      (outfits.length ≤ count →
        (generate_aux gen style occ w count remaining attempts outfits seen).1.length
          ≤ count) := by
  intro remaining
  induction remaining with
  | zero =>
      intro attempts outfits seen hv hn hs
      exact ⟨hv, hn, Nat.le_add_right _ _, fun h => h⟩
  | succ n ih =>
      intro attempts outfits seen hv hn hs
      simp only [generate_aux]
      split
      · rename_i hlen
        split
        · rename_i outfit hg
          split
          · rename_i hval
            split
            · rename_i hseen
              obtain ⟨a, b, c, d⟩ := ih (attempts + 1) outfits seen hv hn hs
              exact ⟨a, b, by omega, d⟩
            · rename_i hseen
              have hitems : (add_weather_block
                  (score_outfit (style attempts) outfit occ w) w).items = outfit.items :=
                scored_items _ _ _ _
              have hv' : ∀ o ∈ outfits ++
                  [add_weather_block (score_outfit (style attempts) outfit occ w) w],
                  valid_items o.items = true := by
                intro o ho
                rcases List.mem_append.mp ho with ho | ho
                · exact hv o ho
                · rw [List.mem_singleton] at ho
                  subst ho
                  rw [hitems]
                  exact hval
              have hn' : ((outfits ++
                  [add_weather_block (score_outfit (style attempts) outfit occ w) w]).map
                  (fun o => signature_of o.items)).Nodup := by
                rw [List.map_append, List.nodup_append]
                refine ⟨hn, by simp, ?_⟩
                intro x hx hy
                simp only [List.map_cons, List.map_nil, List.mem_singleton] at hy
                rw [hitems] at hy
                obtain ⟨o, ho, hsig⟩ := List.mem_map.mp hx
                exact hseen (hy ▸ hsig ▸ hs o ho)
              have hs' : ∀ o ∈ outfits ++
                  [add_weather_block (score_outfit (style attempts) outfit occ w) w],
                  signature_of o.items ∈ seen ++ [signature_of outfit.items] := by
                intro o ho
                rcases List.mem_append.mp ho with ho | ho
                · exact List.mem_append_left _ (hs o ho)
                · rw [List.mem_singleton] at ho
                  subst ho
                  rw [hitems]
                  exact List.mem_append_right _ (List.mem_singleton.mpr rfl)
              obtain ⟨a, b, c, d⟩ := ih (attempts + 1) _ _ hv' hn' hs'
              refine ⟨a, b, by omega, fun _ => d ?_⟩
              rw [List.length_append]
              simpa using hlen
          · rename_i hval
            obtain ⟨a, b, c, d⟩ := ih (attempts + 1) outfits seen hv hn hs
            exact ⟨a, b, by omega, d⟩
        · rename_i hg
          obtain ⟨a, b, c, d⟩ := ih (attempts + 1) outfits seen hv hn hs
          exact ⟨a, b, by omega, d⟩
      · rename_i hlen
        exact ⟨hv, hn, Nat.le_add_right _ _, fun h => h⟩

/-- Unfolding the validity test of `_is_outfit_valid`. -/
theorem valid_items_iff (items : List Item) :
    valid_items items = true ↔
      2 ≤ items.length ∧
      ((items.any fun i => pyLower i.category = "dresses".data) = true ∨
       ((items.any fun i => ["tops", "shirt", "blouse", "t-shirt", "sweater"].any
           fun c => pyLower i.category = c.data) = true ∧
        (items.any fun i => ["bottoms", "pants", "jeans", "skirt", "shorts"].any
           fun c => pyLower i.category = c.data) = true)) := by
  unfold valid_items
  by_cases h1 : items.length < 2
  · simp only [if_pos h1]
    constructor
    · intro h; cases h
    · intro ⟨h, _⟩; omega
  · rw [if_neg h1]
    cases hd : (items.any fun i => pyLower i.category = "dresses".data) with
    | true =>
        rw [if_pos rfl]
        constructor
        · intro _
          exact ⟨by omega, Or.inl rfl⟩
        · intro _
          rfl
    | false =>
        rw [if_neg (by simp), Bool.and_eq_true]
        constructor
        · intro ⟨ht, hb⟩
          exact ⟨by omega, Or.inr ⟨ht, hb⟩⟩
        · intro ⟨_, h⟩
          rcases h with h | h
          · cases h
          · exact h

/-- Claim C1: every list of outfits returned by one generation run is made
of valid outfits (at least 2 items, and a dress or both a top and a
bottom), and no two returned outfits share the same sorted item-identifier
signature — for every random source, weather input and requested count. -/
theorem claim_C1_generated_outfits_unique_valid (gen : ℕ → Option Outfit)
    (style : ℕ → ℚ) (occ : PStr) (w : Option Weather) (count : ℕ) :
    (∀ o ∈ (generate_suggestions_run gen style occ w count).1,
      2 ≤ o.items.length ∧
      ((o.items.any fun i => pyLower i.category = "dresses".data) = true ∨
       ((o.items.any fun i => ["tops", "shirt", "blouse", "t-shirt", "sweater"].any
           fun c => pyLower i.category = c.data) = true ∧
        (o.items.any fun i => ["bottoms", "pants", "jeans", "skirt", "shorts"].any
           fun c => pyLower i.category = c.data) = true))) ∧
    ((generate_suggestions_run gen style occ w count).1.map
      (fun o => signature_of o.items)).Nodup := by
  obtain ⟨hv, hn, -, -⟩ := generate_aux_spec gen style occ w count (count * 20) 0 [] []
    (by simp) (by simp) (by simp)
  have hrun : (generate_suggestions_run gen style occ w count).1 =
      (sortBy (fun a b =>
        decide (b.top_combined_score.getD 0 ≤ a.top_combined_score.getD 0))
        (generate_aux gen style occ w count (count * 20) 0 [] []).1).take count := rfl
  rw [hrun]
  constructor
  · intro o ho
    have h1 : o ∈ sortBy (fun a b =>
        decide (b.top_combined_score.getD 0 ≤ a.top_combined_score.getD 0))
        (generate_aux gen style occ w count (count * 20) 0 [] []).1 :=
      (List.take_sublist _ _).subset ho
    have h2 := (perm_sortBy _ _).mem_iff.mp h1
    exact (valid_items_iff o.items).mp (hv o h2)
  · rw [List.map_take]
    refine List.Nodup.sublist (List.take_sublist _ _) ?_
    have hperm := (perm_sortBy (fun a b : ScoredOutfit =>
      decide (b.top_combined_score.getD 0 ≤ a.top_combined_score.getD 0))
      (generate_aux gen style occ w count (count * 20) 0 [] []).1).map
      (fun o => signature_of o.items)
    exact hperm.nodup_iff.mpr hn

/-- Witness for claim C1 at a concrete random source (which always fails to
build an outfit) and count. -/
theorem claim_C1_witness :
    ((generate_suggestions_run (fun _ => none) (fun _ => 7/10) "casual".data none 3).1.map
      (fun o => signature_of o.items)).Nodup :=
  (claim_C1_generated_outfits_unique_valid (fun _ => none) (fun _ => 7/10)
    "casual".data none 3).2

/-- Claim C9: one generation run performs at most `count * 20` attempts
(the loop is fuel-bounded, hence always terminates) and returns at most
`count` outfits, for every random source and weather input — including an
under-populated wardrobe, where `gen` keeps failing and the run simply
returns fewer (possibly zero) outfits, never an error. -/
theorem claim_C9_attempts_bounded (gen : ℕ → Option Outfit) (style : ℕ → ℚ)
    (occ : PStr) (w : Option Weather) (count : ℕ) :
    (generate_suggestions_run gen style occ w count).2 ≤ count * 20 ∧
    (generate_suggestions_run gen style occ w count).1.length ≤ count := by
  obtain ⟨-, -, hatt, -⟩ := generate_aux_spec gen style occ w count (count * 20) 0 [] []
    (by simp) (by simp) (by simp)
  constructor
  · simpa using hatt
  · have hrun : (generate_suggestions_run gen style occ w count).1 =
        (sortBy (fun a b =>
          decide (b.top_combined_score.getD 0 ≤ a.top_combined_score.getD 0))
          (generate_aux gen style occ w count (count * 20) 0 [] []).1).take count := rfl
    rw [hrun, List.length_take]
    omega

/-- Witness for claim C9 at a concrete random source and count. -/
theorem claim_C9_witness :
    (generate_suggestions_run (fun _ => none) (fun _ => 7/10) "casual".data none 2).2 ≤ 40 :=
  (claim_C9_attempts_bounded (fun _ => none) (fun _ => 7/10) "casual".data none 2).1

/-! ## Claim C5: personalised re-ranking -/

theorem ps_personalized_score_mem (items : List Item) (prefs : Prefs) (occ : PStr) :
    0 ≤ ps_calculate_personalized_score items prefs occ ∧
      ps_calculate_personalized_score items prefs occ ≤ 100 := by
  by_cases h : items = []
  · simp only [ps_calculate_personalized_score, if_pos h]
    norm_num
  · simp only [ps_calculate_personalized_score, if_neg h]
    exact clamp_mem _ 100 (by norm_num)

theorem ps_create_outfit_combinations_sorted (b : Buckets) (w : Option Weather)
    (occ : PStr) :
    (ps_create_outfit_combinations b w occ).Pairwise
      (fun x y => y.style_score ≤ x.style_score) := by
  simp only [ps_create_outfit_combinations]
  exact pairwise_sortBy_key (fun x : ComboOutfit => x.style_score) _

/-- Claim C5: when the mined profile has at least one favourite colour,
every returned candidate carries `combined = 0.4·base + 0.6·personalised`
with the personalised score in `[0, 100]`, the list is re-sorted descending
by the blended score and personalisation is flagged active; with no
favourite colours, candidates keep (and are ranked by) the base style score
alone and personalisation is flagged inactive. -/
theorem claim_C5_personalized_reranking (wardrobe : List Item)
    (weather : Option Weather) (occasion : PStr) (styleprefs : List PStr)
    (specific : Option (List PStr)) (prefs : Prefs) :
    (prefs.favorite_colors ≠ [] →
      (ps_generate_recommendations wardrobe weather occasion styleprefs specific
        prefs).personalization_active = true ∧
      (∀ o ∈ (ps_generate_recommendations wardrobe weather occasion styleprefs specific
          prefs).outfits,
        o.history_based = true ∧
        o.personalized_score = some (ps_calculate_personalized_score o.items prefs occasion) ∧
        (0 ≤ ps_calculate_personalized_score o.items prefs occasion ∧
          ps_calculate_personalized_score o.items prefs occasion ≤ 100) ∧
        o.combined_score = some (o.base_style_score * (2/5) +
          ps_calculate_personalized_score o.items prefs occasion * (3/5)) ∧
        o.style_score = o.base_style_score * (2/5) +
          ps_calculate_personalized_score o.items prefs occasion * (3/5)) ∧
      (ps_generate_recommendations wardrobe weather occasion styleprefs specific
        prefs).outfits.Pairwise (fun x y =>
          y.combined_score.getD y.style_score ≤ x.combined_score.getD x.style_score)) ∧
    (prefs.favorite_colors = [] →
      (ps_generate_recommendations wardrobe weather occasion styleprefs specific
        prefs).personalization_active = false ∧
      (∀ o ∈ (ps_generate_recommendations wardrobe weather occasion styleprefs specific
          prefs).outfits,
        o.history_based = false ∧ o.personalized_score = none ∧
        o.combined_score = none ∧ o.style_score = o.base_style_score) ∧
      (ps_generate_recommendations wardrobe weather occasion styleprefs specific
        prefs).outfits.Pairwise (fun x y =>
          y.base_style_score ≤ x.base_style_score)) := by
  constructor
  · intro hfav
    have hpos : 0 < prefs.favorite_colors.length := List.length_pos.mpr hfav
    refine ⟨?_, ?_, ?_⟩
    · simp only [ps_generate_recommendations]
      simp [hpos]
    · intro o ho
      simp only [ps_generate_recommendations, if_pos hpos] at ho
      have h1 := (List.take_sublist _ _).subset ho
      have h2 := (perm_sortBy _ _).mem_iff.mp h1
      obtain ⟨orig, _, heq⟩ := List.mem_map.mp h2
      subst heq
      exact ⟨rfl, rfl, ps_personalized_score_mem orig.items prefs occasion, rfl, rfl⟩
    · simp only [ps_generate_recommendations, if_pos hpos]
      refine List.Pairwise.sublist (List.take_sublist _ _) ?_
      exact pairwise_sortBy_key (fun x : RankedOutfit =>
        x.combined_score.getD x.style_score) _
  · intro hfav
    have hneg : ¬ 0 < prefs.favorite_colors.length := by
      rw [hfav]
      simp
    refine ⟨?_, ?_, ?_⟩
    · simp only [ps_generate_recommendations]
      simp [hneg]
    · intro o ho
      simp only [ps_generate_recommendations, if_neg hneg] at ho
      have h1 := (List.take_sublist _ _).subset ho
      obtain ⟨orig, _, heq⟩ := List.mem_map.mp h1
      subst heq
      exact ⟨rfl, rfl, rfl, rfl⟩
    · simp only [ps_generate_recommendations, if_neg hneg]
      refine List.Pairwise.sublist (List.take_sublist _ _) ?_
      rw [List.pairwise_map]
      exact (ps_create_outfit_combinations_sorted _ weather occasion).imp (fun h => h)

/-- A concrete mined profile with one favourite colour. -/
def c5_prefs : Prefs :=
  { favorite_colors := ["black".data], preferred_combinations := []
    most_worn_items := [], occasion_preferences := [], average_ratings := [] }

/-- Witness for claim C5 at a concrete profile: personalisation is active
as soon as the profile has a favourite colour. -/
theorem claim_C5_witness :
    (ps_generate_recommendations [] none "casual".data [] none
      c5_prefs).personalization_active = true :=
  ((claim_C5_personalized_reranking [] none "casual".data [] none c5_prefs).1
    (by simp [c5_prefs])).1

/-! ## Claim C4: history mining -/

/-- Contribution of one entry's item list to one colour key: the score `v`
is added once per item occurrence with that (valid) colour. -/
theorem entry_color_sum (l : List HistItem) (v : ℚ) (c : PStr) :
    (((l.filterMap (fun i => if hist_color_ok (hist_color_key i) = true
        then some (hist_color_key i, v) else none)).filter
        (fun p => p.1 = c)).map (·.2)).sum =
      v * (l.countP (fun i =>
        decide (hist_color_key i = c) && hist_color_ok (hist_color_key i)) : ℚ) := by
  induction l with
  | nil => simp
  | cons i t ih =>
      rw [List.filterMap_cons, List.countP_cons]
      by_cases hok : hist_color_ok (hist_color_key i) = true
      · rw [if_pos hok]
        by_cases hc : hist_color_key i = c
        · rw [List.filter_cons_of_pos (by simpa using hc), List.map_cons, List.sum_cons, ih]
          have hok' : hist_color_ok c = true := hc ▸ hok
          have hp : (decide (hist_color_key i = c) && hist_color_ok (hist_color_key i))
              = true := by simp [hc, hok']
          rw [hp]
          simp only [if_true]
          push_cast
          ring
        · rw [List.filter_cons_of_neg (by simpa using hc), ih]
          have hp : (decide (hist_color_key i = c) && hist_color_ok (hist_color_key i))
              = false := by simp [hc]
          rw [hp]
          simp
      · rw [if_neg hok, ih]
        have hp : (decide (hist_color_key i = c) && hist_color_ok (hist_color_key i))
            = false := by
          simp only [Bool.and_eq_false_iff]
          right
          exact Bool.not_eq_true _ ▸ (by simpa using hok)
        rw [hp]
        simp

/-- Summing the colour-contribution stream entry by entry. -/
theorem contribs_color_sum (L : List HistEntry) (c : PStr) :
    (((L.flatMap (fun e =>
        e.outfit_items.filterMap (fun i =>
          if hist_color_ok (hist_color_key i) = true
          then some (hist_color_key i, outfit_score e) else none))).filter
        (fun p => p.1 = c)).map (·.2)).sum =
      (L.map (fun e => outfit_score e * (e.outfit_items.countP (fun i =>
        decide (hist_color_key i = c) && hist_color_ok (hist_color_key i)) : ℚ))).sum := by
  induction L with
  | nil => simp
  | cons e t ih =>
      rw [List.flatMap_cons, List.filter_append, List.map_append, List.sum_append,
        List.map_cons, List.sum_cons, ih, entry_color_sum]

/-- The accumulated score of a colour in `color_scores`: the sum, over the
surviving entries, of the entry's outfit score multiplied by the number of
item occurrences of that colour in the entry. -/
theorem color_scores_value (history : List HistEntry) (c : PStr) :
    lookupD (color_scores_of history) c 0 =
      ((valid_entries history).map (fun e =>
        outfit_score e * (e.outfit_items.countP (fun i =>
          decide (hist_color_key i = c) && hist_color_ok (hist_color_key i)) : ℚ))).sum := by
  unfold color_scores_of
  rw [lookupD_foldl_addToAssoc]
  have h0 : lookupD ([] : List (PStr × ℚ)) c 0 = 0 := rfl
  rw [h0, zero_add]
  unfold color_contribs
  exact contribs_color_sum (valid_entries history) c

/-- Claim C4, amended: each surviving entry scores 5.0 when favourited,
else its rating when present (within the validated 1–5 range), else 3.0;
each colour's accumulated score is the sum over entries of the entry score
times the number of item occurrences of that colour in the entry (an entry
with two same-coloured items contributes its score twice — not once per
entry, as the claim stated); and `favorite_colors` is the 10 highest-scored
colours: at most 10 of them, and no colour outside the list outscores a
colour inside it. -/
theorem claim_C4_history_miner (history : List HistEntry)
    (hr : ∀ e ∈ history, ∀ r, e.rating = some r → 1 ≤ r ∧ r ≤ 5) :
    (∀ e ∈ history, outfit_score e = if e.is_favorite then 5 else e.rating.getD 3) ∧
    (∀ c, lookupD (color_scores_of history) c 0 =
      ((valid_entries history).map (fun e =>
        outfit_score e * (e.outfit_items.countP (fun i =>
          decide (hist_color_key i = c) && hist_color_ok (hist_color_key i)) : ℚ))).sum) ∧
    (favorite_colors_of history).length ≤ 10 ∧
    (∀ c ∈ favorite_colors_of history,
      ∀ d ∈ (color_scores_of history).map (·.1), d ∉ favorite_colors_of history →
        lookupD (color_scores_of history) d 0 ≤ lookupD (color_scores_of history) c 0) := by
  refine ⟨?_, fun c => color_scores_value history c, ?_, ?_⟩
  · intro e he
    cases hfav : e.is_favorite
    · cases hrat : e.rating with
      | none => simp [outfit_score, hfav, hrat]
      | some r =>
          obtain ⟨h1, _⟩ := hr e he r hrat
          have hne : ¬ (r = 0) := by intro h; rw [h] at h1; linarith
          simp [outfit_score, hfav, hrat, hne]
    · simp [outfit_score, hfav]
  · show (((sortBy (fun a b => decide (b.2 ≤ a.2))
      (color_scores_of history)).map (·.1)).take 10).length ≤ 10
    rw [List.length_take]
    omega
  · intro c hc d hd hdnot
    have hnd : ((color_scores_of history).map (·.1)).Nodup :=
      nodup_keys_foldl_addToAssoc _ [] (by simp)
    have hsortperm := perm_sortBy (fun a b : PStr × ℚ => decide (b.2 ≤ a.2))
      (color_scores_of history)
    have hfc : favorite_colors_of history =
        ((sortBy (fun a b => decide (b.2 ≤ a.2)) (color_scores_of history)).take 10).map
          (·.1) := by
      unfold favorite_colors_of
      rw [List.map_take]
    rw [hfc] at hc hdnot
    obtain ⟨pc, hpcmem, hpc1⟩ := List.mem_map.mp hc
    obtain ⟨pd, hpdmem, hpd1⟩ := List.mem_map.mp hd
    have hpdsorted : pd ∈ sortBy (fun a b => decide (b.2 ≤ a.2)) (color_scores_of history) :=
      hsortperm.mem_iff.mpr hpdmem
    have hpddrop : pd ∈ (sortBy (fun a b => decide (b.2 ≤ a.2))
        (color_scores_of history)).drop 10 := by
      have hsplit := List.take_append_drop 10
        (sortBy (fun a b => decide (b.2 ≤ a.2)) (color_scores_of history))
      rw [← hsplit] at hpdsorted
      rcases List.mem_append.mp hpdsorted with h | h
      · exact absurd (List.mem_map.mpr ⟨pd, h, hpd1⟩) hdnot
      · exact h
    have hcross := pairwise_take_drop
      (pairwise_sortBy_key (fun p : PStr × ℚ => p.2) (color_scores_of history)) 10
      pc hpcmem pd hpddrop
    have hpccs : pc ∈ color_scores_of history :=
      hsortperm.mem_iff.mp ((List.take_sublist _ _).subset hpcmem)
    have hpdcs : pd ∈ color_scores_of history := hpdmem
    have hlc : lookupD (color_scores_of history) c 0 = pc.2 := by
      unfold lookupD
      rw [← hpc1, lookupAssoc_eq_of_mem hpccs hnd]
      rfl
    have hld : lookupD (color_scores_of history) d 0 = pd.2 := by
      unfold lookupD
      rw [← hpd1, lookupAssoc_eq_of_mem hpdcs hnd]
      rfl
    rw [hlc, hld]
    exact hcross

/-- Modelled from the spec claim's wording (for comparison with the code's
`color_scores_of`): a colour's accumulated score as the sum of outfit
scores over all entries containing that colour, once per entry. -/
def spec_color_score (history : List HistEntry) (c : PStr) : ℚ :=
  ((history.filter (fun e => e.outfit_items.any (fun i =>
      decide (hist_color_key i = c) && hist_color_ok (hist_color_key i)))).map
    outfit_score).sum

/-- A favourited entry with two black items. -/
def c4_entry : HistEntry :=
  { outfit_items := [⟨"i1".data, "tops".data, "black".data⟩,
                     ⟨"i2".data, "bottoms".data, "black".data⟩]
    is_favorite := true, rating := none, occasion := "casual".data }

/-- Counterexample to claim C4 as stated: a single favourited entry with
two black items accumulates `5.0` twice (once per item occurrence), giving
black the score 10, while the claim's per-entry sum gives 5. -/
theorem claim_C4_counterexample :
    lookupD (color_scores_of [c4_entry]) "black".data 0 = 10 ∧
    spec_color_score [c4_entry] "black".data = 5 ∧
    (10 : ℚ) ≠ 5 := by
  have hkey : hist_color_key ⟨"i1".data, "tops".data, "black".data⟩ = "black".data := by
    decide
  have hc1 : color_contribs [c4_entry] =
      [("black".data, outfit_score c4_entry), ("black".data, outfit_score c4_entry)] := by
    decide
  refine ⟨?_, ?_, by norm_num⟩
  · rw [show color_scores_of [c4_entry] = (color_contribs [c4_entry]).foldl
        (fun acc p => addToAssoc acc p.1 p.2) [] from rfl, hc1]
    have hsc : outfit_score c4_entry = 5 := by decide
    rw [hsc]
    simp only [List.foldl_cons, List.foldl_nil, addToAssoc, if_pos]
    unfold lookupD lookupAssoc
    simp [List.find?]
    norm_num
  · unfold spec_color_score
    rw [show ([c4_entry].filter (fun e => e.outfit_items.any (fun i =>
        decide (hist_color_key i = "black".data) && hist_color_ok (hist_color_key i))))
        = [c4_entry] by decide]
    have hsc : outfit_score c4_entry = 5 := by decide
    simp [hsc]

/-- Witness for claim C4's amended theorem at a concrete history. -/
theorem claim_C4_witness :
    (favorite_colors_of [c4_entry]).length ≤ 10 :=
  (claim_C4_history_miner [c4_entry] (by
    intro e he r hrat
    simp only [List.mem_singleton] at he
    subst he
    simp [c4_entry] at hrat)).2.2.1

end FashionAI
